import Mathlib

/-!
Verification development for `Plane-3dObject-Texture/OpenGLSample/Source.cpp`.

A shallow embedding of the OpenGL sample program: the image row flip, the
texture loader, the shader program builder, the mesh builder and the render
loop.  Calls into GLFW, GLEW, OpenGL and stb_image are recorded as events of
a trace; what those libraries answer is read from an environment record.
-/

namespace OpenGLSample

/-! ## Machine integers and image memory -/

/-- The value a C `int` (32 bit, two's complement) holds after an arithmetic
result `x` is stored in it: `x` reduced into `[-2^31, 2^31)`. -/
def wrapInt (x : Int) : Int := (x + 2147483648) % 4294967296 - 2147483648

/-- An `unsigned char`. -/
abbrev UChar := Fin 256

/-- The memory behind an `unsigned char*`: `size` bytes that may be accessed,
and the byte stored at each offset. -/
structure Buffer where
  size : Nat
  byte : Nat → UChar

/-- Why a run of the embedded code stops without a result. -/
inductive Fault where
  | outOfBounds
  | outOfFuel
  deriving DecidableEq, Repr

/-- Reading `image[i]`. -/
def Buffer.read (b : Buffer) (i : Int) : Except Fault UChar :=
  if 0 ≤ i ∧ i < b.size then .ok (b.byte i.toNat) else .error .outOfBounds

/-- Writing `image[i] = v`. -/
def Buffer.write (b : Buffer) (i : Int) (v : UChar) : Except Fault Buffer :=
  if 0 ≤ i ∧ i < b.size then .ok { b with byte := Function.update b.byte i.toNat v }
  else .error .outOfBounds

/-- Iterations granted to each loop of `flipImageVertically`; an `int`
counter cannot take more steps than this. -/
def loopFuel : Nat := 2147483648

/-- The inner loop of `flipImageVertically`:
`for (i = ...; i > 0; --i) { swap image[index1], image[index2]; ++index1; ++index2; }`. -/
def flipInnerLoop : Nat → Int → Int → Int → Buffer → Except Fault Buffer
  | 0, _, _, _, _ => .error .outOfFuel
  | fuel + 1, i, index1, index2, image =>
    if i > 0 then do
      let tmp ← image.read index1
      let v ← image.read index2
      let image ← image.write index1 v
      let image ← image.write index2 tmp
      flipInnerLoop fuel (wrapInt (i - 1)) (wrapInt (index1 + 1)) (wrapInt (index2 + 1)) image
    else .ok image

/-- The outer loop of `flipImageVertically`: `for (j = ...; j < height / 2; ++j)`;
`innerFuel` is the number of iterations granted to each run of the inner loop. -/
def flipOuterLoop (innerFuel : Nat) (width height channels : Int) :
    Nat → Int → Buffer → Except Fault Buffer
  | 0, _, _ => .error .outOfFuel
  | fuel + 1, j, image =>
    if j < wrapInt (Int.tdiv height 2) then do
      let index1 := wrapInt (wrapInt (j * width) * channels)
      let index2 := wrapInt (wrapInt (wrapInt (wrapInt (height - 1) - j) * width) * channels)
      let image ← flipInnerLoop innerFuel (wrapInt (width * channels)) index1 index2 image
      flipOuterLoop innerFuel width height channels fuel (wrapInt (j + 1)) image
    else .ok image

/-- The function `flipImageVertically(image, width, height, channels)`. -/
def flipImageVertically (image : Buffer) (width height channels : Int) : Except Fault Buffer :=
  flipOuterLoop loopFuel width height channels loopFuel 0 image

/-- Row reversal of a `w` by `h` image with `c` channels: the byte at row `j`,
offset `k` of `after` is the byte at row `h - 1 - j`, offset `k` of `before`. -/
def RowsReversed (w h c : Nat) (before after : Buffer) : Prop :=
  ∀ j k, j < h → k < w * c →
    after.byte (j * (w * c) + k) = before.byte ((h - 1 - j) * (w * c) + k)

/-- A small test image: `n` bytes, the byte at offset `p` is `p` (mod 256). -/
def rampImage (n : Nat) : Buffer := ⟨n, fun p => Fin.ofNat p⟩

/-- An image whose only nonzero byte is the first one. -/
def dotImage (n : Nat) : Buffer := ⟨n, fun p => if p = 0 then 1 else 0⟩

/-! ## The libraries' calls, as events -/

/-- A `GLuint`: the name OpenGL gives to an object. -/
abbrev GLuint := Nat

/-- The keys `UProcessInput` asks for. -/
inductive Key where
  | escape | w | s | a | d | q | e | p
  deriving DecidableEq, Repr

/-- The `Camera_Movement` values handed to `ProcessKeyboard`. -/
inductive CameraMovement where
  | FORWARD | BACKWARD | LEFT | RIGHT | UP | DOWN
  deriving DecidableEq, Repr

/-- The two buffer binding points the program uses. -/
inductive BufferTarget where
  | GL_ARRAY_BUFFER | GL_ELEMENT_ARRAY_BUFFER
  deriving DecidableEq, Repr

/-- The two shader stages. -/
inductive ShaderType where
  | GL_VERTEX_SHADER | GL_FRAGMENT_SHADER
  deriving DecidableEq, Repr

/-- The uniforms looked up by name; a uniform's location stands for its name. -/
inductive Uniform where
  | model | view | projection | uTexture
  deriving DecidableEq, Repr

/-- The matrices `URender` computes, by the name of the local variable. -/
inductive Mat4 where
  | model1 | model2 | model3 | model4 | view | projection
  deriving DecidableEq, Repr

/-- The pixel formats `UCreateTexture` uploads. -/
inductive TexFormat where
  | GL_RGB | GL_RGBA
  deriving DecidableEq, Repr

/-- The callbacks registered by `UInitialize`. -/
inductive Callback where
  | UResizeWindow | UMousePositionCallback | UMouseScrollCallback | UMouseButtonCallback
  deriving DecidableEq, Repr

/-- The mouse buttons told apart by `UMouseButtonCallback`. -/
inductive MouseButton where
  | left | middle | right | other
  deriving DecidableEq, Repr

/-- What the program prints. -/
inductive Message where
  | failedToCreateWindow
  | glewError
  | openGLVersion
  | failedToLoadTexture
  | notImplementedChannels (channels : Int)
  | vertexCompilationFailed
  | fragmentCompilationFailed
  | linkingFailed
  | mouseButton (button : MouseButton) (pressed : Bool)
  | unhandledMouseButton
  deriving DecidableEq, Repr

/-- What the data handed to `glBufferData` holds. -/
inductive BufferContents where
  | floats (data : List Rat)
  | ushorts (data : List Nat)
  deriving DecidableEq

/-- One call into a library (or one line printed), with the arguments that
matter and, for a query, its answer. -/
inductive Event where
  | glfwInit
  | glfwWindowHint
  | glfwCreateWindow (created : Bool)
  | glfwTerminate
  | glfwMakeContextCurrent
  | glfwSetCallback (cb : Callback)
  | glfwSetInputMode
  | glewInit (ok : Bool)
  | glfwWindowShouldClose (answer : Bool)
  | glfwGetTime (answer : Rat)
  | glfwGetKey (key : Key) (pressed : Bool)
  | glfwSetWindowShouldClose (value : Bool)
  | glfwPollEvents
  | glfwSwapBuffers
  | print (msg : Message)
  | stbi_load (loaded : Bool)
  | stbi_image_free
  | ProcessKeyboard (direction : CameraMovement) (deltaTime : Rat)
  | ProcessMouseMovement (xoffset yoffset : Rat)
  | ProcessMouseScroll (yoffset : Rat)
  | ToggleDisplay
  | GetViewMatrix
  | glViewport (width height : Int)
  | glGenVertexArrays (n : Nat) (names : List GLuint)
  | glBindVertexArray (vao : GLuint)
  | glGenBuffers (n : Nat) (names : List GLuint)
  | glBindBuffer (target : BufferTarget) (buffer : GLuint)
  | glBufferData (target : BufferTarget) (bytes : Nat)
  | glVertexAttribPointer (index size stride offset : Nat)
  | glEnableVertexAttribArray (index : Nat)
  | glDeleteVertexArrays (names : List GLuint)
  | glDeleteBuffers (names : List GLuint)
  | glGenTextures (names : List GLuint)
  | glDeleteTextures (names : List GLuint)
  | glBindTexture (texture : GLuint)
  | glTexParameteri
  | glTexImage2D (format : TexFormat) (width height : Int)
  | glGenerateMipmap
  | glCreateProgram (name : GLuint)
  | glCreateShader (type : ShaderType) (name : GLuint)
  | glShaderSource (shader : GLuint)
  | glCompileShader (shader : GLuint)
  | glGetShaderiv (shader : GLuint) (success : Bool)
  | glGetShaderInfoLog (shader : GLuint)
  | glAttachShader (program shader : GLuint)
  | glLinkProgram (program : GLuint)
  | glGetProgramiv (program : GLuint) (success : Bool)
  | glGetProgramInfoLog (program : GLuint)
  | glUseProgram (program : GLuint)
  | glDeleteProgram (program : GLuint)
  | glGetUniformLocation (program : GLuint) (name : Uniform)
  | glUniform1i (location : Uniform) (value : Int)
  | glUniformMatrix4fv (location : Uniform) (value : Mat4)
  | glEnable
  | glClearColor
  | glClear
  | glPolygonMode
  | glDrawElements (count : Nat)

/-! ## Floating point

The types float and double of the program are IEEE 754 binary32 and binary64.
A finite value of either is a rational number; a conversion to the type, and
an arithmetic operation in it, gives the exact result rounded to the nearest
value of the type, ties going to the even mantissa. -/

/-- The quotient `n / d` rounded to the nearest integer, ties to the even one. -/
def roundHalfEven (n d : Nat) : Nat :=
  let q := n / d
  let r := n % d
  if 2 * r < d then q else if d < 2 * r then q + 1 else if q % 2 = 0 then q else q + 1

/-- The position of the leading binary digit of `n`, found in at most `fuel`
halvings: `ilog2 n n` is the `e` with `2 ^ e ≤ n < 2 ^ (e + 1)` when `0 < n`. -/
def ilog2 : Nat → Nat → Nat
  | 0, _ => 0
  | fuel + 1, n => if n < 2 then 0 else ilog2 fuel (n / 2) + 1

/-- The exponent of the leading binary digit of the positive fraction `n / d`:
the `e` with `2 ^ e ≤ n / d < 2 ^ (e + 1)`. -/
def leadingExponent (n d : Nat) : Int :=
  let e0 : Int := (ilog2 n n : Int) - (ilog2 d d : Int)
  if 0 ≤ e0 then (if d * 2 ^ e0.toNat ≤ n then e0 else e0 - 1)
  else (if d ≤ n * 2 ^ (-e0).toNat then e0 else e0 - 1)

/-- The value nearest to `x`, ties to even, in the binary format with `p`
mantissa bits and least exponent `emin` (below `2 ^ emin` the values are the
subnormal ones, spaced `2 ^ (emin - p + 1)` apart). The format's largest
exponent is not part of this: where the code would reach an infinity, beyond
the largest finite value of the type, this still gives a rounded value, so the
statements about values keep to the range of the type. -/
def roundBinary (p : Nat) (emin : Int) (x : Rat) : Rat :=
  if x = 0 then 0
  else
    let n := x.num.natAbs
    let d := x.den
    let e := max (leadingExponent n d) emin
    let k := e - ((p : Int) - 1)
    let v : Rat :=
      if 0 ≤ k then ((roundHalfEven n (d * 2 ^ k.toNat) * 2 ^ k.toNat : Nat) : Rat)
      else mkRat (roundHalfEven (n * 2 ^ (-k).toNat) d) (2 ^ (-k).toNat)
    if x < 0 then -v else v

/-- The conversion to `float`, and the rounding of a `float` operation:
binary32, 24 mantissa bits, least exponent -126. -/
def toFloat (x : Rat) : Rat := roundBinary 24 (-126) x

/-- The conversion to `double`, and the rounding of a `double` operation:
binary64, 53 mantissa bits, least exponent -1022. -/
def toDouble (x : Rat) : Rat := roundBinary 53 (-1022) x

/-- The largest finite `float`, `FLT_MAX`. -/
def floatMax : Rat := 2 ^ 128 - 2 ^ 104

/-! ## Program state -/

/-- The objects OpenGL holds for the program. Names are handed out in order,
`1, 2, 3, ...`, separately for vertex arrays, buffers and textures, and
jointly for programs and shaders. -/
structure GLState where
  /-- vertex-array names generated so far -/
  vaoCount : Nat := 0
  /-- buffer names generated so far -/
  bufferCount : Nat := 0
  /-- texture names generated so far -/
  textureCount : Nat := 0
  /-- program and shader names created so far -/
  objectCount : Nat := 0
  /-- vertex arrays generated and not deleted -/
  vaos : List GLuint := []
  /-- buffers generated and not deleted -/
  buffers : List GLuint := []
  /-- textures generated and not deleted -/
  textures : List GLuint := []
  /-- programs created and not deleted -/
  programs : List GLuint := []
  /-- the vertex array bound -/
  boundVao : GLuint := 0
  /-- the buffer bound to `GL_ARRAY_BUFFER` -/
  arrayBuffer : GLuint := 0
  /-- the buffer bound to `GL_ELEMENT_ARRAY_BUFFER`, per vertex array (latest first) -/
  elementBuffer : List (GLuint × GLuint) := []
  /-- the data store of each buffer (latest first) -/
  store : List (GLuint × BufferContents) := []
  /-- the texture bound to `GL_TEXTURE_2D` -/
  boundTexture : GLuint := 0
  /-- the image of each texture (latest first) -/
  texImage : List (GLuint × Buffer) := []
  /-- shaders compiled successfully -/
  compiled : List GLuint := []
  /-- shaders attached, as pairs (program, shader) -/
  attached : List (GLuint × GLuint) := []
  /-- programs linked successfully -/
  linked : List GLuint := []
  /-- the program in use -/
  currentProgram : GLuint := 0

/-- The struct `GLMesh`: thirteen consecutive `GLuint` slots, in declaration
order `vao1, vao2, vao3, vbos1[2], vbos2[2], vbos3[2], nIndices1 .. nIndices4`. -/
structure GLMesh where
  slots : List GLuint := List.replicate 13 0
  deriving DecidableEq

/-- Offsets of the members of `GLMesh`, in `GLuint` slots. -/
def GLMesh.offVao1 : Nat := 0
def GLMesh.offVao2 : Nat := 1
def GLMesh.offVao3 : Nat := 2
def GLMesh.offVbos1 : Nat := 3
def GLMesh.offVbos2 : Nat := 5
def GLMesh.offVbos3 : Nat := 7
def GLMesh.offNIndices1 : Nat := 9
def GLMesh.offNIndices2 : Nat := 10
def GLMesh.offNIndices3 : Nat := 11
def GLMesh.offNIndices4 : Nat := 12

/-- Reading the slot at offset `i`. -/
def GLMesh.get (m : GLMesh) (i : Nat) : GLuint := m.slots.getD i 0

/-- Storing `v` in the slot at offset `i`. -/
def GLMesh.set (m : GLMesh) (i : Nat) (v : GLuint) : GLMesh := ⟨m.slots.set i v⟩

/-- Storing `vals` in consecutive slots starting at offset `i`, as a call
`glGen*(n, p)` does through the pointer `p`. -/
def GLMesh.store (m : GLMesh) : Nat → List GLuint → GLMesh
  | _, [] => m
  | i, v :: vs => (m.set i v).store (i + 1) vs

def GLMesh.vao1 (m : GLMesh) : GLuint := m.get GLMesh.offVao1
def GLMesh.vao2 (m : GLMesh) : GLuint := m.get GLMesh.offVao2
def GLMesh.vao3 (m : GLMesh) : GLuint := m.get GLMesh.offVao3
def GLMesh.vbos1 (m : GLMesh) (i : Nat) : GLuint := m.get (GLMesh.offVbos1 + i)
def GLMesh.vbos2 (m : GLMesh) (i : Nat) : GLuint := m.get (GLMesh.offVbos2 + i)
def GLMesh.vbos3 (m : GLMesh) (i : Nat) : GLuint := m.get (GLMesh.offVbos3 + i)
def GLMesh.nIndices1 (m : GLMesh) : GLuint := m.get GLMesh.offNIndices1
def GLMesh.nIndices2 (m : GLMesh) : GLuint := m.get GLMesh.offNIndices2

/-- The globals of the program, the state of OpenGL and of the window, and
the calls made so far (oldest first). The `float` globals hold the rational
value of the float. -/
structure World where
  trace : List Event := []
  gl : GLState := {}
  /-- whether `gWindow` is non-null -/
  gWindow : Bool := false
  /-- the close flag of the window -/
  shouldClose : Bool := false
  gMesh : GLMesh := {}
  gTextureId : GLuint := 0
  gProgramId : GLuint := 0
  gLastX : Rat := 400
  gLastY : Rat := 300
  gFirstMouse : Bool := true
  gDeltaTime : Rat := 0
  gLastFrame : Rat := 0

/-- Recording one call. -/
def World.emit (w : World) (e : Event) : World := { w with trace := w.trace ++ [e] }

/-- Recording several calls. -/
def World.emits (w : World) (es : List Event) : World := { w with trace := w.trace ++ es }

/-- The next `n` names after `count` names were handed out. -/
def freshNames (count n : Nat) : List GLuint := (List.range n).map (fun i => count + 1 + i)

/-! ## The vertex and index tables of `UCreateMesh` -/

def verts1 : List Rat :=
  [(-0.3), (-0.5), 0.1, 1.0, 0.0, 0.0, 1.0,
   (-0.2), (-0.5), 0.2, 0.0, 1.0, 0.0, 1.0,
   (-0.1), (-0.5), 0.3, 0.0, 0.0, 1.0, 1.0,
   0.0, (-0.5), 0.4, 1.0, 0.0, 1.0, 1.0,
   0.1, (-0.5), 0.3, 1.0, 0.0, 0.0, 1.0,
   0.2, (-0.5), 0.2, 0.0, 1.0, 0.0, 1.0,
   0.3, (-0.5), 0.1, 0.0, 0.0, 1.0, 1.0,
   (-0.3), (-0.5), (-0.1), 1.0, 0.0, 0.0, 1.0,
   (-0.2), (-0.5), (-0.2), 0.0, 1.0, 0.0, 1.0,
   (-0.1), (-0.5), (-0.3), 0.0, 0.0, 1.0, 1.0,
   0.0, (-0.5), (-0.4), 1.0, 0.0, 1.0, 1.0,
   0.1, (-0.5), (-0.3), 1.0, 0.0, 0.0, 1.0,
   0.2, (-0.5), (-0.2), 0.0, 1.0, 0.0, 1.0,
   0.3, (-0.5), (-0.1), 0.0, 0.0, 1.0, 1.0,
   (-0.3), 0.5, 0.1, 1.0, 0.0, 0.0, 1.0,
   (-0.2), 0.5, 0.2, 0.0, 1.0, 0.0, 1.0,
   (-0.1), 0.5, 0.3, 0.0, 0.0, 1.0, 1.0,
   0.0, 0.5, 0.4, 1.0, 0.0, 1.0, 1.0,
   0.1, 0.5, 0.3, 1.0, 0.0, 0.0, 1.0,
   0.2, 0.5, 0.2, 0.0, 1.0, 0.0, 1.0,
   0.3, 0.5, 0.1, 0.0, 0.0, 1.0, 1.0,
   (-0.3), 0.5, (-0.1), 1.0, 0.0, 0.0, 1.0,
   (-0.2), 0.5, (-0.2), 0.0, 1.0, 0.0, 1.0,
   (-0.1), 0.5, (-0.3), 0.0, 0.0, 1.0, 1.0,
   0.0, 0.5, (-0.4), 1.0, 0.0, 1.0, 1.0,
   0.1, 0.5, (-0.3), 1.0, 0.0, 0.0, 1.0,
   0.2, 0.5, (-0.2), 0.0, 1.0, 0.0, 1.0,
   0.3, 0.5, (-0.1), 0.0, 0.0, 1.0, 1.0]

def verts2 : List Rat :=
  [(-0.3), 0.5, 0.1, 1.0, 0.0, 0.0, 1.0,
   (-0.2), 0.5, 0.2, 0.0, 1.0, 0.0, 1.0,
   (-0.1), 0.5, 0.3, 0.0, 0.0, 1.0, 1.0,
   0.0, 0.5, 0.4, 1.0, 0.0, 1.0, 1.0,
   0.1, 0.5, 0.3, 1.0, 0.0, 0.0, 1.0,
   0.2, 0.5, 0.2, 0.0, 1.0, 0.0, 1.0,
   0.3, 0.5, 0.1, 0.0, 0.0, 1.0, 1.0,
   0.3, 0.5, (-0.1), 0.0, 0.0, 1.0, 1.0,
   0.2, 0.5, (-0.2), 0.0, 1.0, 0.0, 1.0,
   0.1, 0.5, (-0.3), 1.0, 0.0, 0.0, 1.0,
   0.0, 0.5, (-0.4), 1.0, 0.0, 1.0, 1.0,
   (-0.1), 0.5, (-0.3), 0.0, 0.0, 1.0, 1.0,
   (-0.2), 0.5, (-0.2), 0.0, 1.0, 0.0, 1.0,
   (-0.3), 0.5, (-0.1), 1.0, 0.0, 0.0, 1.0,
   0.0, 3.0, 0.0, 0.0, 0.0, 1.0, 1.0]

def verts3 : List Rat :=
  [(-1.0), 0.5, 1.0, 1.0, 0.0, 0.0, 1.0,
   (-1.0), 0.5, (-1.0), 0.0, 1.0, 0.0, 1.0,
   1.0, 0.5, 1.0, 0.0, 0.0, 1.0, 1.0,
   1.0, 0.5, (-1.0), 1.0, 1.0, 0.0, 1.0]

def verts4 : List Rat :=
  [(-1.0), 0.5, 1.0, 1.0, 0.0, 0.0, 1.0,
   (-1.0), 0.5, (-1.0), 0.0, 1.0, 0.0, 1.0,
   1.0, 0.5, 1.0, 0.0, 0.0, 1.0, 1.0,
   1.0, 0.5, (-1.0), 1.0, 1.0, 0.0, 1.0,
   0.0, 3.0, 0.0, 0.0, 0.0, 1.0, 1.0]

def indices1 : List Nat :=
  [0, 1, 15,
   15, 14, 0,
   1, 2, 16,
   15, 16, 1,
   2, 3, 17,
   16, 17, 2,
   3, 4, 18,
   17, 18, 3,
   4, 5, 19,
   18, 19, 4,
   5, 6, 20,
   19, 20, 5,
   0, 7, 21,
   14, 21, 0,
   7, 8, 22,
   22, 21, 7,
   8, 9, 23,
   22, 23, 8,
   9, 10, 24,
   23, 24, 9,
   10, 11, 25,
   24, 25, 10,
   11, 12, 26,
   25, 26, 11,
   12, 13, 27,
   26, 27, 12,
   6, 13, 20,
   27, 20, 6]

def indices2 : List Nat :=
  [0, 1, 14,
   1, 2, 14,
   2, 3, 14,
   3, 4, 14,
   4, 5, 14,
   5, 6, 14,
   6, 7, 14,
   7, 8, 14,
   8, 9, 14,
   9, 10, 14,
   10, 11, 14,
   11, 12, 14,
   12, 13, 14,
   13, 1, 14]

def indices3 : List Nat :=
  [0, 1, 2,
   2, 3, 1]

def indices4 : List Nat :=
  [0, 1, 4,
   1, 3, 4,
   3, 2, 4,
   2, 0, 4,
   0, 1, 2,
   2, 3, 1]

/-! ## OpenGL calls that change the state -/

/-- The call `glGenVertexArrays(n, p)` with `p` pointing at slot `off` of the mesh. -/
def glGenVertexArrays (n off : Nat) (w : World) : World :=
  let names := freshNames w.gl.vaoCount n
  { w with
    gl := { w.gl with vaoCount := w.gl.vaoCount + n, vaos := w.gl.vaos ++ names }
    gMesh := w.gMesh.store off names
    trace := w.trace ++ [.glGenVertexArrays n names] }

/-- The call `glGenBuffers(n, p)` with `p` pointing at slot `off` of the mesh. -/
def glGenBuffers (n off : Nat) (w : World) : World :=
  let names := freshNames w.gl.bufferCount n
  { w with
    gl := { w.gl with bufferCount := w.gl.bufferCount + n, buffers := w.gl.buffers ++ names }
    gMesh := w.gMesh.store off names
    trace := w.trace ++ [.glGenBuffers n names] }

/-- The call `glBindVertexArray(vao)`. -/
def glBindVertexArray (vao : GLuint) (w : World) : World :=
  { w with gl := { w.gl with boundVao := vao }, trace := w.trace ++ [.glBindVertexArray vao] }

/-- The call `glBindBuffer(target, buffer)`: the element-array binding
belongs to the vertex array bound. -/
def glBindBuffer (target : BufferTarget) (buffer : GLuint) (w : World) : World :=
  let gl := match target with
    | .GL_ARRAY_BUFFER => { w.gl with arrayBuffer := buffer }
    | .GL_ELEMENT_ARRAY_BUFFER =>
      { w.gl with elementBuffer := (w.gl.boundVao, buffer) :: w.gl.elementBuffer }
  { w with gl := gl, trace := w.trace ++ [.glBindBuffer target buffer] }

/-- The element-array buffer of a vertex array. -/
def GLState.elementBufferOf (gl : GLState) (vao : GLuint) : GLuint :=
  (gl.elementBuffer.lookup vao).getD 0

/-- The buffer bound to `target`. -/
def GLState.bound (gl : GLState) : BufferTarget → GLuint
  | .GL_ARRAY_BUFFER => gl.arrayBuffer
  | .GL_ELEMENT_ARRAY_BUFFER => gl.elementBufferOf gl.boundVao

/-- Size in bytes of the data: a `GLfloat` has 4 bytes, a `GLushort` 2. -/
def BufferContents.sizeof : BufferContents → Nat
  | .floats data => 4 * data.length
  | .ushorts data => 2 * data.length

/-- The call `glBufferData(target, sizeof(data), data, GL_STATIC_DRAW)`. -/
def glBufferData (target : BufferTarget) (data : BufferContents) (w : World) : World :=
  { w with
    gl := { w.gl with store := (w.gl.bound target, data) :: w.gl.store }
    trace := w.trace ++ [.glBufferData target data.sizeof] }

/-- The number of indices held by the element-array buffer of a vertex array. -/
def GLState.indexCountOf (gl : GLState) (vao : GLuint) : Nat :=
  match gl.store.lookup (gl.elementBufferOf vao) with
  | some (.ushorts data) => data.length
  | _ => 0

/-- The call `glDeleteVertexArrays(n, p)` where `p` points at `names`. -/
def glDeleteVertexArrays (names : List GLuint) (w : World) : World :=
  { w with
    gl := { w.gl with vaos := w.gl.vaos.filter (fun x => !names.contains x) }
    trace := w.trace ++ [.glDeleteVertexArrays names] }

/-- The call `glDeleteBuffers(n, p)` where `p` points at `names`. -/
def glDeleteBuffers (names : List GLuint) (w : World) : World :=
  { w with
    gl := { w.gl with buffers := w.gl.buffers.filter (fun x => !names.contains x) }
    trace := w.trace ++ [.glDeleteBuffers names] }

/-- The call `glGenTextures(1, &textureId)`: the new value of `textureId`. -/
def glGenTextures (w : World) : GLuint × World :=
  let name := w.gl.textureCount + 1
  (name, { w with
    gl := { w.gl with textureCount := w.gl.textureCount + 1, textures := w.gl.textures ++ [name] }
    trace := w.trace ++ [.glGenTextures [name]] })

/-- The call `glBindTexture(GL_TEXTURE_2D, texture)`. -/
def glBindTexture (texture : GLuint) (w : World) : World :=
  { w with gl := { w.gl with boundTexture := texture }, trace := w.trace ++ [.glBindTexture texture] }

/-- The call `glTexImage2D(GL_TEXTURE_2D, ..., width, height, ..., image)`. -/
def glTexImage2D (format : TexFormat) (width height : Int) (image : Buffer) (w : World) : World :=
  { w with
    gl := { w.gl with texImage := (w.gl.boundTexture, image) :: w.gl.texImage }
    trace := w.trace ++ [.glTexImage2D format width height] }

/-- The call `glCreateProgram()`: the name of the new program. -/
def glCreateProgram (w : World) : GLuint × World :=
  let name := w.gl.objectCount + 1
  (name, { w with
    gl := { w.gl with objectCount := w.gl.objectCount + 1, programs := w.gl.programs ++ [name] }
    trace := w.trace ++ [.glCreateProgram name] })

/-- The call `glCreateShader(type)`: the name of the new shader. -/
def glCreateShader (type : ShaderType) (w : World) : GLuint × World :=
  let name := w.gl.objectCount + 1
  (name, { w with
    gl := { w.gl with objectCount := w.gl.objectCount + 1 }
    trace := w.trace ++ [.glCreateShader type name] })

/-- The call `glCompileShader(shader)`, `ok` telling whether the source compiles. -/
def glCompileShader (shader : GLuint) (ok : Bool) (w : World) : World :=
  { w with
    gl := { w.gl with compiled := if ok then w.gl.compiled ++ [shader] else w.gl.compiled }
    trace := w.trace ++ [.glCompileShader shader] }

/-- The call `glAttachShader(program, shader)`. -/
def glAttachShader (program shader : GLuint) (w : World) : World :=
  { w with
    gl := { w.gl with attached := w.gl.attached ++ [(program, shader)] }
    trace := w.trace ++ [.glAttachShader program shader] }

/-- The call `glLinkProgram(program)`, `ok` telling whether the link succeeds. -/
def glLinkProgram (program : GLuint) (ok : Bool) (w : World) : World :=
  { w with
    gl := { w.gl with linked := if ok then w.gl.linked ++ [program] else w.gl.linked }
    trace := w.trace ++ [.glLinkProgram program] }

/-- The call `glUseProgram(program)`. -/
def glUseProgram (program : GLuint) (w : World) : World :=
  { w with gl := { w.gl with currentProgram := program }, trace := w.trace ++ [.glUseProgram program] }

/-- The call `glDeleteProgram(program)`. -/
def glDeleteProgram (program : GLuint) (w : World) : World :=
  { w with
    gl := { w.gl with programs := w.gl.programs.filter (fun x => x != program) }
    trace := w.trace ++ [.glDeleteProgram program] }

/-- Reading `n` consecutive slots of the mesh starting at offset `off`. -/
def GLMesh.load (m : GLMesh) (off n : Nat) : List GLuint :=
  (List.range n).map (fun i => m.get (off + i))

/-! ## The environment -/

/-- What `stbi_load` hands back for an image it could decode. -/
structure Decoded where
  image : Buffer
  width : Int
  height : Int
  channels : Int

/-- What stb_image guarantees of a decoded image: the dimensions are
non-negative `int`s, their product fits an `int`, and the buffer has one byte
per pixel and channel. -/
def Decoded.WellFormed (d : Decoded) : Prop :=
  ∃ w h c : Nat, d.width = w ∧ d.height = h ∧ d.channels = c ∧
    h ≤ 2147483647 ∧ w * h * c ≤ 2147483647 ∧ d.image.size = w * h * c

/-- What arrives between two frames, delivered by `glfwPollEvents`. -/
inductive InputEvent where
  | resize (width height : Int)
  | cursorPos (xpos ypos : Rat)
  | scroll (xoffset yoffset : Rat)
  | mouseButton (button : MouseButton) (pressed : Bool)
  | closeRequested
  deriving DecidableEq

/-- What the outside world gives to one iteration of the render loop. -/
structure Frame where
  /-- the answer of `glfwGetTime`, a `double` -/
  time : Rat
  /-- the keys for which `glfwGetKey` answers `GLFW_PRESS` -/
  pressed : List Key
  /-- the events delivered by `glfwPollEvents` -/
  input : List InputEvent
  deriving DecidableEq

/-- What the libraries answer during start-up. -/
structure Env where
  /-- `glfwCreateWindow` returns a window -/
  windowCreated : Bool
  /-- `glewInit` returns `GLEW_OK` -/
  glewOk : Bool
  /-- the vertex shader source compiles -/
  vertexCompiles : Bool
  /-- the fragment shader source compiles -/
  fragmentCompiles : Bool
  /-- the program links -/
  links : Bool
  /-- the answer of `stbi_load`, `none` for a null pointer -/
  stbi_load : Option Decoded

/-- Modelled from the spec: `EXIT_FAILURE` of `<cstdlib>`, which is not among
the sources; the spec calls it the nonzero failure status. -/
def EXIT_FAILURE : Int := 1

/-- Modelled from the spec: `EXIT_SUCCESS` of `<cstdlib>`, which is not among
the sources; the spec gives success as 0. -/
def EXIT_SUCCESS : Int := 0

/-! ## The functions of the program -/

/-- The function `UInitialize(argc, argv, &gWindow)`. -/
def UInitialize (env : Env) (w : World) : Bool × World :=
  let w := w.emits [.glfwInit, .glfwWindowHint, .glfwWindowHint, .glfwWindowHint]
  let w := w.emit (.glfwCreateWindow env.windowCreated)
  let w := { w with gWindow := env.windowCreated }
  if !w.gWindow then
    (false, w.emits [.print .failedToCreateWindow, .glfwTerminate])
  else
    let w := w.emits [.glfwMakeContextCurrent,
      .glfwSetCallback .UResizeWindow, .glfwSetCallback .UMousePositionCallback,
      .glfwSetCallback .UMouseScrollCallback, .glfwSetCallback .UMouseButtonCallback,
      .glfwSetInputMode]
    let w := w.emit (.glewInit env.glewOk)
    if !env.glewOk then
      (false, w.emit (.print .glewError))
    else
      (true, w.emit (.print .openGLVersion))

/-- The vertex attribute set-up repeated for each object: attribute 0 is the
position (3 floats), attribute 1 the colour (4 floats), stride 7 floats. -/
def vertexAttribs (w : World) : World :=
  let floatsPerVertex := 3
  let floatsPerColor := 4
  let stride := 4 * (floatsPerVertex + floatsPerColor)
  w.emits [.glVertexAttribPointer 0 floatsPerVertex stride 0, .glEnableVertexAttribArray 0,
    .glVertexAttribPointer 1 floatsPerColor stride (4 * floatsPerVertex),
    .glEnableVertexAttribArray 1]

/-- The function `UCreateMesh(gMesh)`. -/
def UCreateMesh (w : World) : World :=
  -- object 1, the plane
  let w := glGenVertexArrays 2 GLMesh.offVao1 w
  let w := glBindVertexArray w.gMesh.vao1 w
  let w := glGenBuffers 2 GLMesh.offVbos1 w
  let w := glBindBuffer .GL_ARRAY_BUFFER (w.gMesh.vbos1 0) w
  let w := glBufferData .GL_ARRAY_BUFFER (.floats verts3) w
  let count := (BufferContents.ushorts indices1).sizeof / 2
  let w := { w with gMesh := w.gMesh.set GLMesh.offNIndices1 count }
  let w := glBindBuffer .GL_ELEMENT_ARRAY_BUFFER (w.gMesh.vbos1 1) w
  let w := glBufferData .GL_ELEMENT_ARRAY_BUFFER (.ushorts indices3) w
  let w := vertexAttribs w
  -- object 2, the tree trunk
  let w := glGenVertexArrays 2 GLMesh.offVao2 w
  let w := glBindVertexArray w.gMesh.vao2 w
  let w := glGenBuffers 2 GLMesh.offVbos2 w
  let w := glBindBuffer .GL_ARRAY_BUFFER (w.gMesh.vbos2 0) w
  let w := glBufferData .GL_ARRAY_BUFFER (.floats verts1) w
  let w := glBufferData .GL_ARRAY_BUFFER (.floats verts1) w
  let count := (BufferContents.ushorts indices1).sizeof / 2
  let w := { w with gMesh := w.gMesh.set GLMesh.offNIndices2 count }
  let w := glBindBuffer .GL_ELEMENT_ARRAY_BUFFER (w.gMesh.vbos2 1) w
  let w := glBufferData .GL_ELEMENT_ARRAY_BUFFER (.ushorts indices1) w
  let w := vertexAttribs w
  -- object 3, the tree top
  let w := glGenVertexArrays 2 GLMesh.offVao3 w
  let w := glBindVertexArray w.gMesh.vao3 w
  let w := glGenBuffers 2 GLMesh.offVbos3 w
  let w := glBindBuffer .GL_ARRAY_BUFFER (w.gMesh.vbos3 0) w
  let w := glBufferData .GL_ARRAY_BUFFER (.floats verts2) w
  let w := glBufferData .GL_ARRAY_BUFFER (.floats verts2) w
  let count := (BufferContents.ushorts indices2).sizeof / 2
  let w := { w with gMesh := w.gMesh.set GLMesh.offNIndices1 count }
  let w := glBindBuffer .GL_ELEMENT_ARRAY_BUFFER (w.gMesh.vbos3 1) w
  let w := glBufferData .GL_ELEMENT_ARRAY_BUFFER (.ushorts indices2) w
  vertexAttribs w

/-- The function `UDestroyMesh(gMesh)`. -/
def UDestroyMesh (w : World) : World :=
  let w := glDeleteVertexArrays (w.gMesh.load GLMesh.offVao1 1) w
  let w := glDeleteVertexArrays (w.gMesh.load GLMesh.offVao2 1) w
  let w := glDeleteVertexArrays (w.gMesh.load GLMesh.offVao3 1) w
  let w := glDeleteBuffers (w.gMesh.load GLMesh.offVbos1 2) w
  let w := glDeleteBuffers (w.gMesh.load GLMesh.offVbos2 2) w
  glDeleteBuffers (w.gMesh.load GLMesh.offVbos3 2) w

/-- The tail of `UCreateTexture` after a successful `glTexImage2D`. -/
def finishTexture (textureId : GLuint) (w : World) : Bool × GLuint × World :=
  let w := w.emits [.glGenerateMipmap, .stbi_image_free]
  let w := glBindTexture 0 w
  (true, textureId, w)

/-- The function `UCreateTexture(filename, textureId)`: the value returned,
the new value of `textureId`, and the new state. -/
def UCreateTexture (env : Env) (textureId : GLuint) (w : World) :
    Except Fault (Bool × GLuint × World) :=
  let w := w.emit (.stbi_load env.stbi_load.isSome)
  match env.stbi_load with
  | some d => do
    let image ← flipImageVertically d.image d.width d.height d.channels
    let (textureId, w) := glGenTextures w
    let w := glBindTexture textureId w
    let w := w.emits [.glTexParameteri, .glTexParameteri, .glTexParameteri, .glTexParameteri]
    if d.channels = 3 then
      .ok (finishTexture textureId (glTexImage2D .GL_RGB d.width d.height image w))
    else if d.channels = 4 then
      .ok (finishTexture textureId (glTexImage2D .GL_RGBA d.width d.height image w))
    else
      .ok (false, textureId, w.emit (.print (.notImplementedChannels d.channels)))
  | none => .ok (false, textureId, w)

/-- The function `UDestroyTexture(textureId)`. -/
def UDestroyTexture (_textureId : GLuint) (w : World) : World :=
  (glGenTextures w).2

/-- The function `UCreateShaderProgram(vtxShaderSource, fragShaderSource, programId)`:
the value returned, the new value of `programId`, and the new state. -/
def UCreateShaderProgram (env : Env) (_programId : GLuint) (w : World) : Bool × GLuint × World :=
  let (programId, w) := glCreateProgram w
  let (vertexShaderId, w) := glCreateShader .GL_VERTEX_SHADER w
  let (fragmentShaderId, w) := glCreateShader .GL_FRAGMENT_SHADER w
  let w := w.emits [.glShaderSource vertexShaderId, .glShaderSource fragmentShaderId]
  let w := glCompileShader vertexShaderId env.vertexCompiles w
  let success := env.vertexCompiles
  let w := w.emit (.glGetShaderiv vertexShaderId success)
  if !success then
    (false, programId,
      w.emits [.glGetShaderInfoLog vertexShaderId, .print .vertexCompilationFailed])
  else
    let w := glCompileShader fragmentShaderId env.fragmentCompiles w
    let success := env.fragmentCompiles
    let w := w.emit (.glGetShaderiv fragmentShaderId success)
    if !success then
      (false, programId,
        w.emits [.glGetShaderInfoLog fragmentShaderId, .print .fragmentCompilationFailed])
    else
      let w := glAttachShader programId vertexShaderId w
      let w := glAttachShader programId fragmentShaderId w
      let w := glLinkProgram programId env.links w
      let success := env.links
      let w := w.emit (.glGetProgramiv programId success)
      if !success then
        (false, programId, w.emits [.glGetProgramInfoLog programId, .print .linkingFailed])
      else
        (true, programId, glUseProgram programId w)

/-- The function `UDestroyShaderProgram(programId)`. -/
def UDestroyShaderProgram (programId : GLuint) (w : World) : World :=
  glDeleteProgram programId w

/-- The function `URender()`. -/
def URender (w : World) : World :=
  let w := w.emits [.glEnable, .glClearColor, .glClear, .GetViewMatrix]
  let w := glUseProgram w.gProgramId w
  let w := w.emits [.glGetUniformLocation w.gProgramId .model,
    .glGetUniformLocation w.gProgramId .view, .glGetUniformLocation w.gProgramId .projection,
    .glUniformMatrix4fv .view .view, .glUniformMatrix4fv .projection .projection]
  -- the plane
  let w := glBindVertexArray w.gMesh.vao1 w
  let w := w.emits [.glUniformMatrix4fv .model .model2, .glPolygonMode,
    .glDrawElements w.gMesh.nIndices1]
  let w := glBindVertexArray 0 w
  -- the tree trunk
  let w := glBindVertexArray w.gMesh.vao2 w
  let w := w.emits [.glUniformMatrix4fv .model .model4, .glPolygonMode,
    .glDrawElements w.gMesh.nIndices2]
  let w := glBindVertexArray 0 w
  -- the tree top
  let w := glBindVertexArray w.gMesh.vao3 w
  let w := w.emits [.glUniformMatrix4fv .model .model3, .glPolygonMode,
    .glDrawElements w.gMesh.nIndices1]
  let w := glBindVertexArray 0 w
  w.emit .glfwSwapBuffers

/-- The test `glfwGetKey(window, key) == GLFW_PRESS`. -/
def glfwGetKey (f : Frame) (key : Key) (w : World) : Bool × World :=
  (f.pressed.contains key, w.emit (.glfwGetKey key (f.pressed.contains key)))

/-- One line of `UProcessInput`:
`if (glfwGetKey(window, key) == GLFW_PRESS) gCamera.ProcessKeyboard(direction, gDeltaTime);` -/
def moveKey (f : Frame) (key : Key) (direction : CameraMovement) (w : World) : World :=
  let (pressed, w) := glfwGetKey f key w
  if pressed then w.emit (.ProcessKeyboard direction w.gDeltaTime) else w

/-- The function `UProcessInput(gWindow)`. -/
def UProcessInput (f : Frame) (w : World) : World :=
  let (pressed, w) := glfwGetKey f .escape w
  let w := if pressed then
      { w.emit (.glfwSetWindowShouldClose true) with shouldClose := true }
    else w
  let w := moveKey f .w .FORWARD w
  let w := moveKey f .s .BACKWARD w
  let w := moveKey f .a .LEFT w
  let w := moveKey f .d .RIGHT w
  let w := moveKey f .q .UP w
  let w := moveKey f .e .DOWN w
  let (pressed, w) := glfwGetKey f .p w
  if pressed then w.emit .ToggleDisplay else w

/-- The function `UResizeWindow(window, width, height)`. -/
def UResizeWindow (width height : Int) (w : World) : World :=
  w.emit (.glViewport width height)

/-- The function `UMousePositionCallback(window, xpos, ypos)`. The positions
are `double`, `gLastX` and `gLastY` are `float`: an assignment to them narrows;
`xpos - gLastX` and `gLastY - ypos` are `double` subtractions (the `float`
operand widens without change) whose results are narrowed to the `float`
variables `xoffset` and `yoffset`. -/
def UMousePositionCallback (xpos ypos : Rat) (w : World) : World :=
  let w := if w.gFirstMouse then
      { w with gLastX := toFloat xpos, gLastY := toFloat ypos, gFirstMouse := false }
    else w
  let xoffset := toFloat (toDouble (xpos - w.gLastX))
  let yoffset := toFloat (toDouble (w.gLastY - ypos))
  let w := { w with gLastX := toFloat xpos, gLastY := toFloat ypos }
  w.emit (.ProcessMouseMovement xoffset yoffset)

/-- The function `UMouseScrollCallback(window, xoffset, yoffset)`. -/
def UMouseScrollCallback (_xoffset yoffset : Rat) (w : World) : World :=
  w.emit (.ProcessMouseScroll yoffset)

/-- The function `UMouseButtonCallback(window, button, action, mods)`. -/
def UMouseButtonCallback (button : MouseButton) (pressed : Bool) (w : World) : World :=
  match button with
  | .other => w.emit (.print .unhandledMouseButton)
  | b => w.emit (.print (.mouseButton b pressed))

/-- What GLFW does with one event: it calls the callback registered for it;
a close request sets the close flag of the window. -/
def dispatch (w : World) : InputEvent → World
  | .resize width height => UResizeWindow width height w
  | .cursorPos xpos ypos => UMousePositionCallback xpos ypos w
  | .scroll xoffset yoffset => UMouseScrollCallback xoffset yoffset w
  | .mouseButton button pressed => UMouseButtonCallback button pressed w
  | .closeRequested => { w with shouldClose := true }

/-- The call `glfwPollEvents()`. -/
def glfwPollEvents (f : Frame) (w : World) : World :=
  f.input.foldl dispatch (w.emit .glfwPollEvents)

/-- The per-frame timing at the head of the render loop:
`float currentFrame = glfwGetTime(); gDeltaTime = currentFrame - gLastFrame; gLastFrame = currentFrame;`
The `double` answer of `glfwGetTime` is narrowed to the `float` variable
`currentFrame`, and the subtraction is a `float` subtraction. -/
def perFrameTiming (f : Frame) (w : World) : World :=
  let w := w.emit (.glfwGetTime f.time)
  let currentFrame := toFloat f.time
  let w := { w with gDeltaTime := toFloat (currentFrame - w.gLastFrame) }
  { w with gLastFrame := currentFrame }

/-- The body of the render loop of `main`. -/
def frameBody (f : Frame) (w : World) : World :=
  let w := perFrameTiming f w
  let w := UProcessInput f w
  let w := URender w
  glfwPollEvents f w

/-- The test `glfwWindowShouldClose(gWindow)`. -/
def glfwWindowShouldClose (w : World) : Bool × World :=
  (w.shouldClose, w.emit (.glfwWindowShouldClose w.shouldClose))

/-- The render loop of `main`, `while (!glfwWindowShouldClose(gWindow)) ...`,
run on the frames the outside world supplies; when they are used up and the
window is still open, the run has not ended: `outOfFuel`. -/
def renderLoop : List Frame → World → Except Fault World
  | [], w =>
    let (close, w) := glfwWindowShouldClose w
    if !close then .error .outOfFuel else .ok w
  | f :: frames, w =>
    let (close, w) := glfwWindowShouldClose w
    if !close then renderLoop frames (frameBody f w) else .ok w

/-- The start-up of `main` from the texture load on: whether the render loop
is entered (`false` when `main` returns `EXIT_FAILURE` instead) and the state
reached. -/
def startupTexture (env : Env) (w : World) : Except Fault (Bool × World) := do
  let (ok, textureId, w) ← UCreateTexture env w.gTextureId w
  let w := { w with gTextureId := textureId }
  if !ok then .ok (false, w.emit (.print .failedToLoadTexture))
  else
    let w := glUseProgram w.gProgramId w
    let w := w.emits [.glGetUniformLocation w.gProgramId .uTexture,
      .glUniform1i .uTexture 0, .glClearColor]
    .ok (true, w)

/-- The start-up of `main` from the shader build on. -/
def startupShader (env : Env) (w : World) : Except Fault (Bool × World) :=
  let (ok, programId, w) := UCreateShaderProgram env w.gProgramId w
  let w := { w with gProgramId := programId }
  if !ok then .ok (false, w)
  else startupTexture env w

/-- The part of `main` before the render loop: whether the loop is entered
(`false` when `main` returns `EXIT_FAILURE` instead) and the state reached. -/
def startup (env : Env) : Except Fault (Bool × World) :=
  let w : World := {}
  let (ok, w) := UInitialize env w
  if !ok then .ok (false, w)
  else startupShader env (UCreateMesh w)

/-- The part of `main` after the render loop. -/
def shutdown (w : World) : World :=
  let w := UDestroyMesh w
  UDestroyShaderProgram w.gProgramId w

/-- The function `main`: the exit status and the final state. -/
def main (env : Env) (frames : List Frame) : Except Fault (Int × World) := do
  let (entered, w) ← startup env
  if !entered then .ok (EXIT_FAILURE, w)
  else
    let w ← renderLoop frames w
    .ok (EXIT_SUCCESS, shutdown w)

/-! ## Reading traces -/

/-- The arguments of a `ProcessKeyboard` call. -/
def Event.asProcessKeyboard : Event → Option (CameraMovement × Rat)
  | .ProcessKeyboard direction deltaTime => some (direction, deltaTime)
  | _ => none

/-- The `ProcessKeyboard` calls of a trace, in order. -/
def keyboardCalls (trace : List Event) : List (CameraMovement × Rat) :=
  trace.filterMap Event.asProcessKeyboard

/-- The arguments of a `ProcessMouseMovement` call. -/
def Event.asProcessMouseMovement : Event → Option (Rat × Rat)
  | .ProcessMouseMovement xoffset yoffset => some (xoffset, yoffset)
  | _ => none

/-- The offsets handed to `ProcessMouseMovement` in a trace, in order. -/
def mouseOffsets (trace : List Event) : List (Rat × Rat) :=
  trace.filterMap Event.asProcessMouseMovement

/-- The movement keys and the direction each one stands for, in the order
`UProcessInput` asks for them. -/
def movementKeys : List (Key × CameraMovement) :=
  [(.w, .FORWARD), (.s, .BACKWARD), (.a, .LEFT), (.d, .RIGHT), (.q, .UP), (.e, .DOWN)]

/-- The `ProcessKeyboard` calls expected of a frame in which the keys
`pressed` are down and the delta time is `deltaTime`. -/
def expectedKeyboardCalls (pressed : List Key) (deltaTime : Rat) : List (CameraMovement × Rat) :=
  (movementKeys.filter (fun kd => pressed.contains kd.1)).map (fun kd => (kd.2, deltaTime))

/-- A run of cursor events through `UMousePositionCallback`. -/
def mouseRun (w : World) (positions : List (Rat × Rat)) : World :=
  positions.foldl (fun w p => UMousePositionCallback p.1 p.2 w) w

/-- The offsets between consecutive cursor positions, the y axis reversed:
`(xpos - previous xpos, previous ypos - ypos)`. -/
def cursorDeltas : Rat × Rat → List (Rat × Rat) → List (Rat × Rat)
  | _, [] => []
  | prev, p :: ps => (p.1 - prev.1, prev.2 - p.2) :: cursorDeltas p ps

/-- The offsets `UMousePositionCallback` forwards for the positions `ps` when
`gLastX`, `gLastY` hold `last`: each difference is taken in `double` against
the stored `float` and narrowed to `float`, and the position is stored
narrowed to `float`. -/
def floatDeltas : Rat × Rat → List (Rat × Rat) → List (Rat × Rat)
  | _, [] => []
  | last, p :: ps =>
    (toFloat (toDouble (p.1 - last.1)), toFloat (toDouble (last.2 - p.2))) ::
      floatDeltas (toFloat p.1, toFloat p.2) ps

/-- A cursor coordinate the code can receive and keeps within the range of
`float`: a `double` of magnitude at most `2 ^ 126`, so that neither narrowing
it nor the difference of two such coordinates exceeds `FLT_MAX`. -/
def coordInRange (x : Rat) : Bool :=
  decide (toDouble x = x) && decide (-(2 ^ 126) ≤ x) && decide (x ≤ 2 ^ 126)

/-- Both coordinates of a cursor position are in range. -/
def cursorInRange (p : Rat × Rat) : Bool := coordInRange p.1 && coordInRange p.2

/-- No rounding occurs on the value: narrowed to `float` it is unchanged. -/
def isFloat (x : Rat) : Bool := decide (toFloat x = x)

/-- Arithmetic is exact along the positions `p :: ps`: every coordinate is a
`float`, and every difference of consecutive coordinates comes out of the
`double` subtraction and the narrowing to `float` unchanged. -/
def exactRun : Rat × Rat → List (Rat × Rat) → Bool
  | p, [] => isFloat p.1 && isFloat p.2
  | p, q :: qs =>
    isFloat p.1 && isFloat p.2 &&
      decide (toFloat (toDouble (q.1 - p.1)) = q.1 - p.1) &&
      decide (toFloat (toDouble (p.2 - q.2)) = p.2 - q.2) && exactRun q qs

/-- An answer of `glfwGetTime` within the range of `float`: a `double`, not
negative, at most `FLT_MAX`. -/
def timeInRange (t : Rat) : Bool :=
  decide (toDouble t = t) && decide (0 ≤ t) && decide (t ≤ floatMax)

/-- A value the loop leaves in `gLastFrame`: a `float`, not negative, at most
`FLT_MAX`. -/
def lastFrameInRange (t : Rat) : Bool :=
  decide (toFloat t = t) && decide (0 ≤ t) && decide (t ≤ floatMax)

/-- The globals fed by the input callbacks and the loop head, and the close
flag, agree in two states. -/
def World.sameInputs (w w' : World) : Prop :=
  w'.gLastFrame = w.gLastFrame ∧ w'.gDeltaTime = w.gDeltaTime ∧ w'.gLastX = w.gLastX ∧
  w'.gLastY = w.gLastY ∧ w'.gFirstMouse = w.gFirstMouse ∧ w'.shouldClose = w.shouldClose

/-! ## Triangles of the index tables -/

/-- A triangle, by the indices of its three vertices. -/
abbrev Triangle := Nat × Nat × Nat

/-- The triangles an index array describes to `glDrawElements(GL_TRIANGLES, ...)`:
three consecutive indices each. -/
def triangles : List Nat → List Triangle
  | a :: b :: c :: rest => (a, b, c) :: triangles rest
  | _ => []

/-- The vertices of a triangle. -/
def Triangle.vertices (t : Triangle) : List Nat := [t.1, t.2.1, t.2.2]

/-- Two lists hold the same elements. -/
def sameSet (xs ys : List Nat) : Bool :=
  xs.all (fun x => ys.contains x) && ys.all (fun y => xs.contains y)

/-- The vertices two triangles have in common. -/
def commonVertices (t1 t2 : Triangle) : List Nat :=
  (t1.vertices.filter (fun v => t2.vertices.contains v)).eraseDups

/-- Consecutive pairs of triangles: the "rectangles" of `indices1`. -/
def trianglePairs : List Triangle → List (Triangle × Triangle)
  | t1 :: t2 :: rest => (t1, t2) :: trianglePairs rest
  | _ => []

/-- The bottom ring of the trunk (`verts1`) in the order of the circle: the
first half `0 .. 6` (x rising, z positive), then the second half back from
`13` to `7` (x falling, z negative); `7` closes the ring next to `0`. -/
def trunkRing : List Nat := [0, 1, 2, 3, 4, 5, 6, 13, 12, 11, 10, 9, 8, 7]

/-- Two bottom vertices of the trunk are neighbours on the ring. -/
def ringAdjacent (a b : Nat) : Bool :=
  (List.range 14).any (fun i =>
    let u := trunkRing.getD i 0
    let v := trunkRing.getD ((i + 1) % 14) 0
    (u == a && v == b) || (u == b && v == a))

/-- A pair of triangles tiles the side rectangle over the ring-adjacent bottom
vertices `a`, `b`: its vertices are exactly `a, b, a + 14, b + 14`, and the
triangles share exactly the diagonal from `a` to `b + 14`. -/
def tilesSideOver (pair : Triangle × Triangle) (a b : Nat) : Bool :=
  ringAdjacent a b &&
    sameSet (pair.1.vertices ++ pair.2.vertices) [a, b, a + 14, b + 14] &&
    sameSet (commonVertices pair.1 pair.2) [a, b + 14] &&
    (commonVertices pair.1 pair.2).length == 2

/-- A pair of triangles tiles one side rectangle of the cylinder. -/
def tilesSide (pair : Triangle × Triangle) : Bool :=
  (List.range 14).any (fun a => (List.range 14).any (fun b => tilesSideOver pair a b))

/-- The closed triangle fan over a ring of `n` vertices `0 .. n - 1` around
the vertex `apex`: the triangles `(i, (i + 1) mod n, apex)`. -/
def closedFan (n apex : Nat) : List Triangle :=
  (List.range n).map (fun i => (i, (i + 1) % n, apex))

/-! ## Reading traces: start-up, shaders, drawing, release -/

/-- The calls made after state `w0` on the way to state `w`. -/
def World.since (w0 w : World) : List Event := w.trace.drop w0.trace.length

/-- The message of a `print`. -/
def Event.asPrint : Event → Option Message
  | .print msg => some msg
  | _ => none

/-- The messages printed in a trace, in order. -/
def printed (trace : List Event) : List Message := trace.filterMap Event.asPrint

/-- The three stages of the shader build. -/
inductive Stage where
  | vertexCompile | fragmentCompile | link
  deriving DecidableEq, Repr

/-- The diagnostic printed when a stage fails. -/
def Stage.diagnostic : Stage → Message
  | .vertexCompile => .vertexCompilationFailed
  | .fragmentCompile => .fragmentCompilationFailed
  | .link => .linkingFailed

/-- The first stage that fails, in the order vertex compile, fragment
compile, link; `none` when all succeed. -/
def Env.firstFailure (env : Env) : Option Stage :=
  if !env.vertexCompiles then some .vertexCompile
  else if !env.fragmentCompiles then some .fragmentCompile
  else if !env.links then some .link
  else none

/-- The stages from the first one up to and including `last` (all three for `none`). -/
def stagesUpTo : Option Stage → List Stage
  | some .vertexCompile => [.vertexCompile]
  | some .fragmentCompile => [.vertexCompile, .fragmentCompile]
  | _ => [.vertexCompile, .fragmentCompile, .link]

/-- The type a shader name was created with in a trace. -/
def shaderTypeIn : List Event → GLuint → Option ShaderType
  | [], _ => none
  | .glCreateShader type name :: rest, shader =>
    if name = shader then some type else shaderTypeIn rest shader
  | _ :: rest, shader => shaderTypeIn rest shader

/-- The stage an event attempts: `glCompileShader` of a vertex or fragment
shader, or `glLinkProgram`. -/
def stageOf (trace : List Event) : Event → Option Stage
  | .glCompileShader shader =>
    match shaderTypeIn trace shader with
    | some .GL_VERTEX_SHADER => some .vertexCompile
    | some .GL_FRAGMENT_SHADER => some .fragmentCompile
    | none => none
  | .glLinkProgram _ => some .link
  | _ => none

/-- The stages attempted in a trace, in order. -/
def stagesRun (trace : List Event) : List Stage := trace.filterMap (stageOf trace)

/-- The texture loader succeeds: the decoder returned an image and its
channel count is 3 or 4. -/
def Env.textureOk (env : Env) : Bool :=
  match env.stbi_load with
  | some d => decide (d.channels = 3 ∨ d.channels = 4)
  | none => false

/-- The messages `UCreateTexture` is to print: one for a decoded image with an
unsupported channel count. -/
def Env.textureReport (env : Env) : List Message :=
  match env.stbi_load with
  | some d => if d.channels = 3 ∨ d.channels = 4 then [] else [.notImplementedChannels d.channels]
  | none => []

/-- `UInitialize` succeeds. -/
def Env.initOk (env : Env) : Bool := env.windowCreated && env.glewOk

/-- `UCreateShaderProgram` succeeds. -/
def Env.shaderOk (env : Env) : Bool := env.vertexCompiles && env.fragmentCompiles && env.links

/-- All of `UInitialize`, `UCreateShaderProgram` and `UCreateTexture` succeed. -/
def Env.startupOk (env : Env) : Bool := env.initOk && env.shaderOk && env.textureOk

/-- The frame closes the window: ESC is seen pressed, or a close request arrives. -/
def Frame.closes (f : Frame) : Bool :=
  f.pressed.contains .escape || f.input.contains .closeRequested

/-- The landmarks of the render loop in a trace. -/
inductive Marker where
  | check (answer : Bool)
  | setClose
  | draw
  | swap
  | poll
  deriving DecidableEq, Repr

/-- The landmark an event stands for: the loop test, the close flag being
set, a draw call, the buffer swap, the event poll. -/
def Event.asMarker : Event → Option Marker
  | .glfwWindowShouldClose answer => some (.check answer)
  | .glfwSetWindowShouldClose true => some .setClose
  | .glDrawElements _ => some .draw
  | .glfwSwapBuffers => some .swap
  | .glfwPollEvents => some .poll
  | _ => none

/-- The landmarks of a trace, in order. -/
def markers (trace : List Event) : List Marker := trace.filterMap Event.asMarker

/-- The landmarks the render loop leaves when it is run on `frames` from an
open window: in each iteration the loop test answering false, the close flag
being set when ESC is seen pressed, the three draws, the swap and the poll;
after the first frame that closes the window the loop test answers true and
nothing follows (with no frame left, the loop test answers false). -/
def loopMarkers : List Frame → List Marker
  | [] => [.check false]
  | f :: rest =>
    [.check false] ++ (if f.pressed.contains .escape then [.setClose] else []) ++
      [.draw, .draw, .draw, .swap, .poll] ++
      (if f.closes then [.check true] else loopMarkers rest)

/-- A call that releases GPU objects. -/
inductive Release where
  | vertexArrays (names : List GLuint)
  | buffers (names : List GLuint)
  | textures (names : List GLuint)
  | program (name : GLuint)
  deriving DecidableEq, Repr

/-- The release an event performs. -/
def Event.asRelease : Event → Option Release
  | .glDeleteVertexArrays names => some (.vertexArrays names)
  | .glDeleteBuffers names => some (.buffers names)
  | .glDeleteTextures names => some (.textures names)
  | .glDeleteProgram name => some (.program name)
  | _ => none

/-- The releases of a trace, in order. -/
def releases (trace : List Event) : List Release := trace.filterMap Event.asRelease

/-- What is known of a draw call when it is issued. -/
structure DrawRecord where
  /-- the vertex array bound -/
  vao : GLuint
  /-- the matrix last uploaded to the `model` uniform -/
  model : Option Mat4
  /-- the index count passed -/
  count : Nat
  /-- the buffers were cleared before -/
  cleared : Bool
  /-- the matrix last uploaded to the `view` uniform -/
  view : Option Mat4
  /-- the matrix last uploaded to the `projection` uniform -/
  projection : Option Mat4
  /-- the buffers were swapped before -/
  swapped : Bool
  deriving DecidableEq, Repr

/-- The drawing state followed along a trace. -/
structure DrawState where
  vao : GLuint := 0
  model : Option Mat4 := none
  cleared : Bool := false
  view : Option Mat4 := none
  projection : Option Mat4 := none
  swapped : Bool := false
  draws : List DrawRecord := []
  deriving DecidableEq, Repr

/-- The effect of one event on the drawing state. -/
def DrawState.step (s : DrawState) : Event → DrawState
  | .glBindVertexArray vao => { s with vao := vao }
  | .glUniformMatrix4fv .model m => { s with model := some m }
  | .glUniformMatrix4fv .view m => { s with view := some m }
  | .glUniformMatrix4fv .projection m => { s with projection := some m }
  | .glClear => { s with cleared := true }
  | .glfwSwapBuffers => { s with swapped := true }
  | .glDrawElements count =>
    { s with draws := s.draws ++
        [⟨s.vao, s.model, count, s.cleared, s.view, s.projection, s.swapped⟩] }
  | _ => s

/-- The drawing state after the calls of a trace. -/
def drawing (trace : List Event) : DrawState := trace.foldl DrawState.step {}

/-- An environment in which everything succeeds; the image is 2 by 2 with 3 channels. -/
def goodEnv : Env := ⟨true, true, true, true, true, some ⟨rampImage 12, 2, 2, 3⟩⟩

/-- A frame at time one half in which ESC and W are seen pressed and the cursor moves. -/
def escFrame : Frame := ⟨1 / 2, [.escape, .w], [.cursorPos 3 4]⟩

/-- A frame at time one quarter in which W is seen pressed and the cursor
moves; it leaves the window open. -/
def openFrame : Frame := ⟨1 / 4, [.w], [.cursorPos 5 6]⟩

/-- An environment in which the vertex shader does not compile. -/
def brokenVertexEnv : Env := ⟨true, true, false, true, true, none⟩

/-- An environment in which the decoder returns a 2 by 3 image with 2 channels. -/
def twoChannelEnv : Env := ⟨true, true, true, true, true, some ⟨rampImage 12, 2, 3, 2⟩⟩

/-! ## Theorems -/

theorem wrapInt_of_range (x : Int) (h1 : -2147483648 ≤ x) (h2 : x < 2147483648) :
    wrapInt x = x := by
  unfold wrapInt
  omega

theorem Buffer.read_of_lt (b : Buffer) (i : Nat) (h : i < b.size) :
    b.read (i : Int) = .ok (b.byte i) := by
  have h1 : (i : Int) < (b.size : Int) := by exact_mod_cast h
  simp [Buffer.read, h1]

theorem Buffer.write_of_lt (b : Buffer) (i : Nat) (v : UChar) (h : i < b.size) :
    b.write (i : Int) v = .ok { b with byte := Function.update b.byte i v } := by
  have h1 : (i : Int) < (b.size : Int) := by exact_mod_cast h
  simp [Buffer.write, h1]

/-- The inner loop, run for `n` steps on two disjoint in-range stretches of
`n` bytes, exchanges them and touches nothing else. -/
theorem flipInnerLoop_spec (n : Nat) : ∀ (fuel a b : Nat) (img : Buffer),
    n < fuel → a + n ≤ b → b + n ≤ img.size → img.size < 2147483648 →
    ∃ img', flipInnerLoop fuel (n : Int) (a : Int) (b : Int) img = .ok img' ∧
      img'.size = img.size ∧
      ∀ p, img'.byte p =
        if a ≤ p ∧ p < a + n then img.byte (p - a + b)
        else if b ≤ p ∧ p < b + n then img.byte (p - b + a)
        else img.byte p := by
  induction n with
  | zero =>
    intro fuel a b img hf _ _ _
    obtain ⟨f, rfl⟩ : ∃ f, fuel = f + 1 := ⟨fuel - 1, by omega⟩
    refine ⟨img, by simp [flipInnerLoop], rfl, ?_⟩
    intro p
    have h1 : ¬ (a ≤ p ∧ p < a + 0) := by omega
    have h2 : ¬ (b ≤ p ∧ p < b + 0) := by omega
    rw [if_neg h1, if_neg h2]
  | succ n ih =>
    intro fuel a b img hf hab hb hs
    obtain ⟨f, rfl⟩ : ∃ f, fuel = f + 1 := ⟨fuel - 1, by omega⟩
    have ha : a < img.size := by omega
    have hb' : b < img.size := by omega
    have e1 : wrapInt (((n + 1 : Nat) : Int) - 1) = (n : Int) := by
      rw [wrapInt_of_range] <;> push_cast <;> omega
    have e2 : wrapInt ((a : Int) + 1) = ((a + 1 : Nat) : Int) := by
      rw [wrapInt_of_range] <;> push_cast <;> omega
    have e3 : wrapInt ((b : Int) + 1) = ((b + 1 : Nat) : Int) := by
      rw [wrapInt_of_range] <;> push_cast <;> omega
    have hpos : ((n + 1 : Nat) : Int) > 0 := by push_cast; omega
    obtain ⟨img', h1, h2, h3⟩ := ih f (a + 1) (b + 1)
      { img with byte := Function.update (Function.update img.byte a (img.byte b)) b (img.byte a) }
      (by omega) (by omega) (by simpa using (by omega : b + 1 + n ≤ img.size)) (by simpa using hs)
    refine ⟨img', ?_, by simpa using h2, ?_⟩
    · rw [flipInnerLoop, if_pos hpos, Buffer.read_of_lt _ _ ha, Buffer.read_of_lt _ _ hb']
      simp only [bind, Except.bind]
      rw [Buffer.write_of_lt _ _ _ ha]
      simp only []
      rw [Buffer.write_of_lt _ _ _ (by simpa using hb'), e1, e2, e3]
      exact h1
    · intro p
      rw [h3 p]
      simp only [Function.update_apply]
      split_ifs <;> first | (exfalso; omega) | (refine congrArg img.byte ?_; omega)

/-- The index `x * width * channels` as the code computes it, when the true
product fits an `int`. -/
theorem rowIndex_eq (x w c : Nat) (h : x * (w * c) < 2147483648) :
    wrapInt (wrapInt ((x : Int) * (w : Int)) * (c : Int)) = ((x * (w * c) : Nat) : Int) := by
  rcases Nat.eq_zero_or_pos c with hc | hc
  · subst hc
    simp [wrapInt]
  · have h1 : x * w ≤ x * w * c := Nat.le_mul_of_pos_right _ hc
    have h2 : x * w * c = x * (w * c) := Nat.mul_assoc x w c
    have h3 : wrapInt ((x : Int) * (w : Int)) = ((x * w : Nat) : Int) := by
      have e : (x : Int) * (w : Int) = ((x * w : Nat) : Int) := by push_cast; rfl
      rw [e, wrapInt_of_range] <;> omega
    have h4 : ((x * w : Nat) : Int) * (c : Int) = ((x * (w * c) : Nat) : Int) := by
      rw [← h2]; push_cast; rfl
    rw [h3, h4, wrapInt_of_range] <;> omega

/-- A position `r * n + q` with `q < n` lies in row `j` exactly when `r = j`. -/
theorem row_iff (n r j q : Nat) (hq : q < n) :
    (j * n ≤ r * n + q ∧ r * n + q < j * n + n) ↔ r = j := by
  constructor
  · rintro ⟨h1, h2⟩
    rcases Nat.lt_trichotomy r j with hlt | heq | hgt
    · exfalso
      have : (r + 1) * n ≤ j * n := Nat.mul_le_mul_right n hlt
      rw [Nat.add_mul] at this
      omega
    · exact heq
    · exfalso
      have : (j + 1) * n ≤ r * n := Nat.mul_le_mul_right n hgt
      rw [Nat.add_mul] at this
      omega
  · rintro rfl
    omega

theorem wrapInt_natCast (n : Nat) (h : n < 2147483648) : wrapInt (n : Int) = (n : Int) := by
  rw [wrapInt_of_range] <;> omega

theorem wrapInt_mul_natCast (w c : Nat) (h : w * c < 2147483648) :
    wrapInt ((w : Int) * (c : Int)) = ((w * c : Nat) : Int) := by
  have e : (w : Int) * (c : Int) = ((w * c : Nat) : Int) := by push_cast; rfl
  rw [e, wrapInt_natCast _ h]

theorem wrapInt_succ_natCast (j : Nat) (h : j + 1 < 2147483648) :
    wrapInt ((j : Int) + 1) = ((j + 1 : Nat) : Int) := by
  have e : (j : Int) + 1 = ((j + 1 : Nat) : Int) := by push_cast; rfl
  rw [e, wrapInt_natCast _ h]

theorem wrapInt_mirrorRow (h j : Nat) (hh : h < 2147483648) (hj : j < h) :
    wrapInt (wrapInt ((h : Int) - 1) - (j : Int)) = ((h - 1 - j : Nat) : Int) := by
  rw [wrapInt_of_range ((h : Int) - 1) (by omega) (by omega), wrapInt_of_range] <;> omega

theorem wrapInt_half (h : Nat) (hh : h < 2147483648) :
    wrapInt (Int.tdiv (h : Int) 2) = ((h / 2 : Nat) : Int) := by
  have e : Int.tdiv (h : Int) 2 = ((h / 2 : Nat) : Int) := (Int.ofNat_tdiv h 2).symm
  rw [e, wrapInt_natCast]
  omega

/-- After the inner loop has exchanged rows `j` and `h - 1 - j`, row by row. -/
theorem rows_after_swap (n h j q : Nat) (hq : q < n) (hj : j + 1 ≤ h - 1 - j)
    (img img1 : Buffer)
    (g3 : ∀ p, img1.byte p =
        if j * n ≤ p ∧ p < j * n + n then img.byte (p - j * n + (h - 1 - j) * n)
        else if (h - 1 - j) * n ≤ p ∧ p < (h - 1 - j) * n + n
          then img.byte (p - (h - 1 - j) * n + j * n)
        else img.byte p) (r : Nat) :
    img1.byte (r * n + q) =
      if r = j then img.byte ((h - 1 - j) * n + q)
      else if r = h - 1 - j then img.byte (j * n + q)
      else img.byte (r * n + q) := by
  rw [g3]
  have i1 := row_iff n r j q hq
  have i2 := row_iff n r (h - 1 - j) q hq
  by_cases c1 : r = j
  · rw [if_pos (i1.mpr c1), if_pos c1]
    refine congrArg img.byte ?_
    subst c1
    clear i1 i2 g3
    omega
  · rw [if_neg (fun hx => c1 (i1.mp hx)), if_neg c1]
    by_cases c2 : r = h - 1 - j
    · rw [if_pos (i2.mpr c2), if_pos c2]
      refine congrArg img.byte ?_
      subst c2
      clear i1 i2 g3
      omega
    · rw [if_neg (fun hx => c2 (i2.mp hx)), if_neg c2]

/-- The outer loop started at row `j` with `k` rows left to exchange: rows
`j .. h/2 - 1` and their mirror rows are exchanged, every other row is kept. -/
theorem flipOuterLoop_spec (F w h c : Nat) (hh : h < 2147483648) (hF : 2 ≤ h → w * c < F)
    (k : Nat) :
    ∀ (fuel j : Nat) (img : Buffer), j + k = h / 2 → k < fuel →
    img.size = h * (w * c) → img.size < 2147483648 →
    ∃ img', flipOuterLoop F (w : Int) (h : Int) (c : Int) fuel (j : Int) img = .ok img' ∧
      img'.size = img.size ∧
      ∀ r q, r < h → q < w * c → img'.byte (r * (w * c) + q) =
        if (j ≤ r ∧ r < h / 2) ∨ (h - h / 2 ≤ r ∧ r < h - j)
        then img.byte ((h - 1 - r) * (w * c) + q) else img.byte (r * (w * c) + q) := by
  have hdiv := wrapInt_half h hh
  induction k with
  | zero =>
    intro fuel j img hj hf _ _
    obtain ⟨f, rfl⟩ : ∃ f, fuel = f + 1 := ⟨fuel - 1, by omega⟩
    have hnot : ¬ ((j : Int) < ((h / 2 : Nat) : Int)) := by omega
    refine ⟨img, ?_, rfl, ?_⟩
    · rw [flipOuterLoop, hdiv, if_neg hnot]
    · intro r q _ _
      have h1 : ¬ ((j ≤ r ∧ r < h / 2) ∨ (h - h / 2 ≤ r ∧ r < h - j)) := by omega
      rw [if_neg h1]
  | succ k ih =>
    intro fuel j img hj hf hsz hmax
    obtain ⟨f, rfl⟩ : ∃ f, fuel = f + 1 := ⟨fuel - 1, by omega⟩
    have hjh : j < h := by omega
    have hmir : j + 1 ≤ h - 1 - j := by omega
    have hlt : (j : Int) < ((h / 2 : Nat) : Int) := by omega
    have hrow : (h - 1 - j) * (w * c) + (w * c) ≤ h * (w * c) := by
      have : (h - 1 - j + 1) * (w * c) ≤ h * (w * c) := Nat.mul_le_mul_right _ (by omega)
      rw [Nat.add_mul, Nat.one_mul] at this
      exact this
    have hord : j * (w * c) + (w * c) ≤ (h - 1 - j) * (w * c) := by
      have : (j + 1) * (w * c) ≤ (h - 1 - j) * (w * c) := Nat.mul_le_mul_right _ hmir
      rw [Nat.add_mul, Nat.one_mul] at this
      exact this
    have hb1 : j * (w * c) < 2147483648 := by omega
    have hb2 : (h - 1 - j) * (w * c) < 2147483648 := by omega
    have hb3 : w * c < 2147483648 := by omega
    have hb4 : j + 1 < 2147483648 := by omega
    have hb5 : (h - 1 - j) * (w * c) + w * c ≤ img.size := by omega
    have hk : j + 1 + k = h / 2 := by omega
    have hf' : k < f := by omega
    obtain ⟨img1, g1, g2, g3⟩ := flipInnerLoop_spec (w * c) F (j * (w * c))
      ((h - 1 - j) * (w * c)) img (hF (by omega)) hord hb5 hmax
    obtain ⟨img2, k1, k2, k3⟩ := ih f (j + 1) img1 hk hf' (g2.trans hsz) (g2 ▸ hmax)
    refine ⟨img2, ?_, k2.trans g2, ?_⟩
    · rw [flipOuterLoop, hdiv, if_pos hlt]
      simp only [rowIndex_eq j w c hb1, wrapInt_mirrorRow h j hh hjh,
        rowIndex_eq (h - 1 - j) w c hb2, wrapInt_mul_natCast w c hb3,
        wrapInt_succ_natCast j hb4, g1, bind, Except.bind]
      exact k1
    · intro r q hr hq
      have rows := rows_after_swap (w * c) h j q hq hmir img img1 g3
      rw [k3 r q hr hq, rows, rows]
      clear rows k3 k1 g3 g1 ih hrow hord hb1 hb2 hb3 hb4 hb5 hF hsz hmax g2 k2 hdiv hlt
      split_ifs <;> first
        | (exfalso; omega)
        | (refine congrArg (fun x => img.byte (x * (w * c) + q)) ?_; omega)


/-- The inner loop ends when its counter is not positive. -/
theorem flipInnerLoop_exit (fuel : Nat) (i index1 index2 : Int) (image : Buffer)
    (hi : ¬ i > 0) : flipInnerLoop (fuel + 1) i index1 index2 image = .ok image := by
  rw [flipInnerLoop, if_neg hi]

/-- The outer loop ends when `j < height / 2` fails. -/
theorem flipOuterLoop_exit (F : Nat) (width height channels : Int) (fuel : Nat) (j : Int)
    (image : Buffer) (hj : ¬ j < wrapInt (Int.tdiv height 2)) :
    flipOuterLoop F width height channels (fuel + 1) j image = .ok image := by
  rw [flipOuterLoop, if_neg hj]

/-- One iteration of the outer loop. -/
theorem flipOuterLoop_step (F : Nat) (width height channels : Int) (fuel : Nat) (j : Int)
    (image image1 : Buffer) (hj : j < wrapInt (Int.tdiv height 2))
    (hin : flipInnerLoop F (wrapInt (width * channels)) (wrapInt (wrapInt (j * width) * channels))
      (wrapInt (wrapInt (wrapInt (wrapInt (height - 1) - j) * width) * channels)) image
      = .ok image1) :
    flipOuterLoop F width height channels (fuel + 1) j image
      = flipOuterLoop F width height channels fuel (wrapInt (j + 1)) image1 := by
  rw [flipOuterLoop, if_pos hj]
  simp only [hin, bind, Except.bind]

/-- C1 (as amended): for `int` dimensions `w, h, c ≥ 0` whose product
`w * h * c` is at most `INT_MAX = 2147483647` and a buffer of exactly
`w * h * c` bytes, `flipImageVertically` returns, keeps the buffer size, and
afterwards the byte at row `j`, offset `k` is the byte that was at row
`h - 1 - j`, offset `k`; bytes within a row keep their order. -/
theorem flipImageVertically_reverses_rows (w h c : Nat) (img : Buffer)
    (hh : h ≤ 2147483647) (hsz : img.size = w * h * c) (hmax : w * h * c ≤ 2147483647) :
    ∃ img', flipImageVertically img (w : Int) (h : Int) (c : Int) = .ok img' ∧
      img'.size = img.size ∧ RowsReversed w h c img img' := by
  have hsz' : img.size = h * (w * c) := by rw [hsz, Nat.mul_comm w h, Nat.mul_assoc]
  have hF : 2 ≤ h → w * c < loopFuel := by
    intro h2
    have : w * c ≤ h * (w * c) := Nat.le_mul_of_pos_left _ (by omega)
    unfold loopFuel
    omega
  have hfuel : h / 2 < loopFuel := by unfold loopFuel; omega
  obtain ⟨img', h1, h2, h3⟩ := flipOuterLoop_spec loopFuel w h c (by omega) hF (h / 2)
    loopFuel 0 img (by omega) hfuel hsz' (by omega)
  refine ⟨img', h1, h2, ?_⟩
  intro j k hj hk
  rw [h3 j k hj hk]
  clear h3 h1 hF hfuel hsz hsz' hmax h2
  split_ifs with hc
  · rfl
  · refine congrArg (fun x => img.byte (x * (w * c) + k)) ?_
    omega

/-- C1, witness: a 2 by 3 image with 2 channels. -/
theorem flipImageVertically_reverses_rows_witness :
    ∃ img', flipImageVertically (rampImage 12) 2 3 2 = .ok img' ∧
      img'.size = (rampImage 12).size ∧ RowsReversed 2 3 2 (rampImage 12) img' :=
  flipImageVertically_reverses_rows 2 3 2 (rampImage 12) (by decide) (by decide) (by decide)

/-- C1, counterexample to the claim as stated: for `w = c = 65536`, `h = 2`
and a buffer of exactly `w * h * c = 2^33` bytes the `int` product
`width * channels` is `0`, no byte is moved, and row `0` does not hold what
row `1` held. -/
theorem flipImageVertically_counterexample :
    (dotImage 8589934592).size = 65536 * 2 * 65536 ∧
    ¬ ∃ img', flipImageVertically (dotImage 8589934592) 65536 2 65536 = .ok img' ∧
      RowsReversed 65536 2 65536 (dotImage 8589934592) img' := by
  refine ⟨by decide, ?_⟩
  rintro ⟨img', h1, h2⟩
  have e : flipImageVertically (dotImage 8589934592) 65536 2 65536
      = .ok (dotImage 8589934592) := by
    have hfuel : loopFuel = 2147483646 + 1 + 1 := by decide
    unfold flipImageVertically
    rw [hfuel, flipOuterLoop_step _ _ _ _ _ _ _ (dotImage 8589934592) (by decide)
      (flipInnerLoop_exit _ _ _ _ _ (by decide)), flipOuterLoop_exit _ _ _ _ _ _ _ (by decide)]
  rw [e] at h1
  cases h1
  have := h2 0 0 (by decide) (by decide)
  simp [dotImage] at this

/-! ### Traces and globals through the calls of a frame -/

theorem keyboardCalls_append (a b : List Event) :
    keyboardCalls (a ++ b) = keyboardCalls a ++ keyboardCalls b := by
  simp [keyboardCalls, List.filterMap_append]

theorem moveKey_spec (f : Frame) (key : Key) (direction : CameraMovement) (w : World) :
    (moveKey f key direction w).gDeltaTime = w.gDeltaTime ∧
    (moveKey f key direction w).gLastFrame = w.gLastFrame ∧
    keyboardCalls (moveKey f key direction w).trace =
      keyboardCalls w.trace ++
        (if f.pressed.contains key then [(direction, w.gDeltaTime)] else []) := by
  unfold moveKey glfwGetKey
  by_cases h : key ∈ f.pressed
  · simp [h, World.emit, keyboardCalls, Event.asProcessKeyboard]
  · simp [h, World.emit, keyboardCalls, Event.asProcessKeyboard]

theorem moveKey_gDeltaTime (f : Frame) (key : Key) (direction : CameraMovement) (w : World) :
    (moveKey f key direction w).gDeltaTime = w.gDeltaTime := (moveKey_spec f key direction w).1

theorem moveKey_gLastFrame (f : Frame) (key : Key) (direction : CameraMovement) (w : World) :
    (moveKey f key direction w).gLastFrame = w.gLastFrame := (moveKey_spec f key direction w).2.1

theorem moveKey_keyboardCalls (f : Frame) (key : Key) (direction : CameraMovement) (w : World) :
    keyboardCalls (moveKey f key direction w).trace =
      keyboardCalls w.trace ++
        (if f.pressed.contains key then [(direction, w.gDeltaTime)] else []) :=
  (moveKey_spec f key direction w).2.2

theorem expectedKeyboardCalls_eq (pressed : List Key) (t : Rat) :
    expectedKeyboardCalls pressed t =
      (if pressed.contains .w then [(CameraMovement.FORWARD, t)] else []) ++
      ((if pressed.contains .s then [(CameraMovement.BACKWARD, t)] else []) ++
      ((if pressed.contains .a then [(CameraMovement.LEFT, t)] else []) ++
      ((if pressed.contains .d then [(CameraMovement.RIGHT, t)] else []) ++
      ((if pressed.contains .q then [(CameraMovement.UP, t)] else []) ++
      (if pressed.contains .e then [(CameraMovement.DOWN, t)] else []))))) := by
  simp only [expectedKeyboardCalls, movementKeys, List.filter_cons, List.filter_nil]
  split_ifs <;> rfl

/-- What `UProcessInput` does to the timing globals and which `ProcessKeyboard`
calls it makes. -/
theorem UProcessInput_spec (f : Frame) (w : World) :
    (UProcessInput f w).gDeltaTime = w.gDeltaTime ∧
    (UProcessInput f w).gLastFrame = w.gLastFrame ∧
    keyboardCalls (UProcessInput f w).trace =
      keyboardCalls w.trace ++ expectedKeyboardCalls f.pressed w.gDeltaTime := by
  rw [expectedKeyboardCalls_eq]
  unfold UProcessInput
  have k1 : ∀ key b, keyboardCalls [Event.glfwGetKey key b] = [] := fun _ _ => rfl
  have k2 : keyboardCalls [Event.ToggleDisplay] = [] := rfl
  have k3 : ∀ key b b', keyboardCalls
      [Event.glfwGetKey key b, Event.glfwSetWindowShouldClose b'] = [] := fun _ _ _ => rfl
  have k4 : ∀ key b, keyboardCalls [Event.glfwGetKey key b, Event.ToggleDisplay] = [] :=
    fun _ _ => rfl
  by_cases hesc : Key.escape ∈ f.pressed <;> by_cases hp : Key.p ∈ f.pressed <;>
    simp [glfwGetKey, hesc, hp, World.emit, moveKey_gDeltaTime, moveKey_gLastFrame,
      moveKey_keyboardCalls, keyboardCalls_append, k1, k2, k3, k4]

/-- The calls `URender` makes, in order. -/
theorem URender_trace (w : World) :
    (URender w).trace = w.trace ++
      [.glEnable, .glClearColor, .glClear, .GetViewMatrix, .glUseProgram w.gProgramId,
       .glGetUniformLocation w.gProgramId .model, .glGetUniformLocation w.gProgramId .view,
       .glGetUniformLocation w.gProgramId .projection,
       .glUniformMatrix4fv .view .view, .glUniformMatrix4fv .projection .projection,
       .glBindVertexArray w.gMesh.vao1, .glUniformMatrix4fv .model .model2, .glPolygonMode,
       .glDrawElements w.gMesh.nIndices1, .glBindVertexArray 0,
       .glBindVertexArray w.gMesh.vao2, .glUniformMatrix4fv .model .model4, .glPolygonMode,
       .glDrawElements w.gMesh.nIndices2, .glBindVertexArray 0,
       .glBindVertexArray w.gMesh.vao3, .glUniformMatrix4fv .model .model3, .glPolygonMode,
       .glDrawElements w.gMesh.nIndices1, .glBindVertexArray 0,
       .glfwSwapBuffers] := by
  simp [URender, World.emit, World.emits, glUseProgram, glBindVertexArray]

/-- The globals `URender` leaves alone. -/
theorem URender_globals (w : World) :
    (URender w).gDeltaTime = w.gDeltaTime ∧ (URender w).gLastFrame = w.gLastFrame ∧
    (URender w).shouldClose = w.shouldClose ∧ (URender w).gMesh = w.gMesh ∧
    (URender w).gProgramId = w.gProgramId := by
  simp [URender, World.emit, World.emits, glUseProgram, glBindVertexArray]

theorem URender_keyboardCalls (w : World) :
    keyboardCalls (URender w).trace = keyboardCalls w.trace := by
  rw [URender_trace, keyboardCalls_append]
  simp [keyboardCalls, Event.asProcessKeyboard]

/-- No callback touches the timing globals or calls `ProcessKeyboard`. -/
theorem dispatch_spec (w : World) (ev : InputEvent) :
    (dispatch w ev).gDeltaTime = w.gDeltaTime ∧ (dispatch w ev).gLastFrame = w.gLastFrame ∧
    keyboardCalls (dispatch w ev).trace = keyboardCalls w.trace := by
  cases ev with
  | resize width height =>
    simp [dispatch, UResizeWindow, World.emit, keyboardCalls, Event.asProcessKeyboard]
  | cursorPos xpos ypos =>
    by_cases h : w.gFirstMouse = true <;>
      simp [dispatch, UMousePositionCallback, World.emit, keyboardCalls,
        Event.asProcessKeyboard, h]
  | scroll xoffset yoffset =>
    simp [dispatch, UMouseScrollCallback, World.emit, keyboardCalls, Event.asProcessKeyboard]
  | mouseButton button pressed =>
    cases button <;>
      simp [dispatch, UMouseButtonCallback, World.emit, keyboardCalls, Event.asProcessKeyboard]
  | closeRequested => simp [dispatch]

theorem foldl_dispatch_spec (input : List InputEvent) : ∀ w : World,
    (input.foldl dispatch w).gDeltaTime = w.gDeltaTime ∧
    (input.foldl dispatch w).gLastFrame = w.gLastFrame ∧
    keyboardCalls (input.foldl dispatch w).trace = keyboardCalls w.trace := by
  induction input with
  | nil => intro w; simp
  | cons ev rest ih =>
    intro w
    obtain ⟨a, b, c⟩ := ih (dispatch w ev)
    obtain ⟨a', b', c'⟩ := dispatch_spec w ev
    simp only [List.foldl_cons]
    exact ⟨a.trans a', b.trans b', c.trans c'⟩

theorem glfwPollEvents_spec (f : Frame) (w : World) :
    (glfwPollEvents f w).gDeltaTime = w.gDeltaTime ∧
    (glfwPollEvents f w).gLastFrame = w.gLastFrame ∧
    keyboardCalls (glfwPollEvents f w).trace = keyboardCalls w.trace := by
  obtain ⟨a, b, c⟩ := foldl_dispatch_spec f.input (w.emit .glfwPollEvents)
  refine ⟨a, b, ?_⟩
  unfold glfwPollEvents
  rw [c]
  simp [World.emit, keyboardCalls, Event.asProcessKeyboard]

theorem perFrameTiming_spec (f : Frame) (w : World) :
    (perFrameTiming f w).gDeltaTime = toFloat (toFloat f.time - w.gLastFrame) ∧
    (perFrameTiming f w).gLastFrame = toFloat f.time ∧
    keyboardCalls (perFrameTiming f w).trace = keyboardCalls w.trace := by
  simp [perFrameTiming, World.emit, keyboardCalls, Event.asProcessKeyboard]

/-- Timing and keyboard calls of one iteration of the render loop. -/
theorem frameBody_spec (f : Frame) (w : World) :
    (frameBody f w).gDeltaTime = toFloat (toFloat f.time - w.gLastFrame) ∧
    (frameBody f w).gLastFrame = toFloat f.time ∧
    keyboardCalls (frameBody f w).trace =
      keyboardCalls w.trace ++
        expectedKeyboardCalls f.pressed (toFloat (toFloat f.time - w.gLastFrame)) := by
  obtain ⟨a0, b0, c0⟩ := perFrameTiming_spec f w
  obtain ⟨a1, b1, c1⟩ := UProcessInput_spec f (perFrameTiming f w)
  obtain ⟨a2, b2, -, -, -⟩ := URender_globals (UProcessInput f (perFrameTiming f w))
  have c2 := URender_keyboardCalls (UProcessInput f (perFrameTiming f w))
  obtain ⟨a3, b3, c3⟩ := glfwPollEvents_spec f (URender (UProcessInput f (perFrameTiming f w)))
  refine ⟨?_, ?_, ?_⟩
  · exact a3.trans (a2.trans (a1.trans a0))
  · exact b3.trans (b2.trans (b1.trans b0))
  · show keyboardCalls (glfwPollEvents f (URender (UProcessInput f (perFrameTiming f w)))).trace = _
    rw [c3, c2, c1, c0, a0]

/-! ### Start-up leaves the input globals alone -/

theorem World.sameInputs_refl (w : World) : w.sameInputs w := ⟨rfl, rfl, rfl, rfl, rfl, rfl⟩

theorem World.sameInputs_trans {a b c : World} (h1 : a.sameInputs b) (h2 : b.sameInputs c) :
    a.sameInputs c := by
  obtain ⟨p1, p2, p3, p4, p5, p6⟩ := h1
  obtain ⟨q1, q2, q3, q4, q5, q6⟩ := h2
  exact ⟨q1.trans p1, q2.trans p2, q3.trans p3, q4.trans p4, q5.trans p5, q6.trans p6⟩

theorem UInitialize_sameInputs (env : Env) (w : World) : w.sameInputs (UInitialize env w).2 := by
  unfold UInitialize
  cases hw : env.windowCreated <;> cases hg : env.glewOk <;>
    simp [World.sameInputs, World.emit, World.emits]

theorem UCreateMesh_sameInputs (w : World) : w.sameInputs (UCreateMesh w) := by
  simp only [World.sameInputs, UCreateMesh, vertexAttribs, World.emits, glBufferData,
    glBindBuffer, glGenBuffers, glBindVertexArray, glGenVertexArrays, and_self]

theorem UCreateShaderProgram_sameInputs (env : Env) (programId : GLuint) (w : World) :
    w.sameInputs (UCreateShaderProgram env programId w).2.2 := by
  unfold UCreateShaderProgram
  cases hv : env.vertexCompiles <;> cases hf : env.fragmentCompiles <;> cases hl : env.links <;>
    simp [World.sameInputs, World.emit, World.emits, glCreateProgram, glCreateShader,
      glCompileShader, glAttachShader, glLinkProgram, glUseProgram]

theorem UCreateTexture_sameInputs (env : Env) (textureId : GLuint) (w : World)
    (r : Bool × GLuint × World) (h : UCreateTexture env textureId w = .ok r) :
    w.sameInputs r.2.2 := by
  unfold UCreateTexture at h
  cases hd : env.stbi_load with
  | none =>
    simp only [hd] at h
    cases h
    exact ⟨rfl, rfl, rfl, rfl, rfl, rfl⟩
  | some d =>
    simp only [hd] at h
    cases hflip : flipImageVertically d.image d.width d.height d.channels with
    | error e => simp [hflip, bind, Except.bind] at h
    | ok image =>
      simp only [hflip, bind, Except.bind] at h
      by_cases h3 : d.channels = 3
      · simp only [h3, if_true] at h
        cases h
        exact ⟨rfl, rfl, rfl, rfl, rfl, rfl⟩
      · by_cases h4 : d.channels = 4
        · simp only [h4, if_true] at h
          cases h
          exact ⟨rfl, rfl, rfl, rfl, rfl, rfl⟩
        · simp only [h3, h4, if_false] at h
          cases h
          exact ⟨rfl, rfl, rfl, rfl, rfl, rfl⟩

theorem startupTexture_sameInputs (env : Env) (w : World) (r : Bool × World)
    (h : startupTexture env w = .ok r) : w.sameInputs r.2 := by
  unfold startupTexture at h
  cases ht : UCreateTexture env w.gTextureId w with
  | error e => simp [ht, bind, Except.bind] at h
  | ok t =>
    have i1 := UCreateTexture_sameInputs env w.gTextureId w t ht
    obtain ⟨ok, textureId, w1⟩ := t
    simp only [ht, bind, Except.bind] at h
    cases ok
    · simp only [Bool.not_false, if_true] at h
      cases h
      exact i1
    · simp only [Bool.not_true, Bool.false_eq_true, if_false] at h
      cases h
      exact i1

theorem startupShader_sameInputs (env : Env) (w : World) (r : Bool × World)
    (h : startupShader env w = .ok r) : w.sameInputs r.2 := by
  unfold startupShader at h
  have i1 := UCreateShaderProgram_sameInputs env w.gProgramId w
  cases hok : (UCreateShaderProgram env w.gProgramId w).1
  · simp only [hok, Bool.not_false, if_true] at h
    cases h
    exact i1
  · simp only [hok, Bool.not_true, Bool.false_eq_true, if_false] at h
    have i2 : ∀ (x : World) (p : GLuint), x.sameInputs { x with gProgramId := p } :=
      fun _ _ => ⟨rfl, rfl, rfl, rfl, rfl, rfl⟩
    exact World.sameInputs_trans i1
      (World.sameInputs_trans (i2 _ _) (startupTexture_sameInputs env _ r h))

theorem startup_sameInputs (env : Env) (r : Bool × World) (h : startup env = .ok r) :
    ({} : World).sameInputs r.2 := by
  unfold startup at h
  have i1 := UInitialize_sameInputs env {}
  cases hok : (UInitialize env {}).1
  · simp only [hok, Bool.not_false, if_true] at h
    cases h
    exact i1
  · simp only [hok, Bool.not_true, Bool.false_eq_true, if_false] at h
    exact World.sameInputs_trans i1
      (World.sameInputs_trans (UCreateMesh_sameInputs _) (startupShader_sameInputs env _ r h))

/-- C11, as amended: for timestamps within the range of `float` (the
`double` answers of `glfwGetTime` in the iteration and the next one, and the
`float` in `gLastFrame`), every iteration of the render loop sets
`gLastFrame` to the current timestamp narrowed to `float` and `gDeltaTime` to
the `float` difference of that and the old `gLastFrame`: their exact difference
rounded to the nearest `float`. The old `gLastFrame` is the narrowed timestamp
of the previous iteration, and `0` when `main` enters the loop. The
`ProcessKeyboard` calls of the iteration are, in the order W, S, A, D, Q, E,
one call per key seen pressed, with the direction FORWARD, BACKWARD, LEFT,
RIGHT, UP, DOWN of that key and that iteration's `gDeltaTime`, and none for a
key that is not pressed. -/
theorem frame_timing_and_keyboard (env : Env) (f g : Frame) (w : World)
    (_hf : timeInRange f.time = true) (_hg : timeInRange g.time = true)
    (_hw : lastFrameInRange w.gLastFrame = true) :
    (frameBody f w).gLastFrame = toFloat f.time ∧
    (frameBody f w).gDeltaTime = toFloat (toFloat f.time - w.gLastFrame) ∧
    (frameBody g (glfwWindowShouldClose (frameBody f w)).2).gDeltaTime =
      toFloat (toFloat g.time - toFloat f.time) ∧
    (startup env).map (fun r => r.2.gLastFrame) = (startup env).map (fun _ => (0 : Rat)) ∧
    keyboardCalls (frameBody f w).trace =
      keyboardCalls w.trace ++ expectedKeyboardCalls f.pressed (frameBody f w).gDeltaTime := by
  obtain ⟨a, b, c⟩ := frameBody_spec f w
  refine ⟨b, a, ?_, ?_, ?_⟩
  · rw [(frameBody_spec g _).1]
    simp [glfwWindowShouldClose, World.emit, b]
  · cases h : startup env with
    | error e => rfl
    | ok r =>
      have := (startup_sameInputs env r h).1
      simp [Except.map, this]
  · rw [c, a]

/-- C11, witness: the frame `escFrame` (time one half, W pressed) from the
initial state, followed by a frame at time three quarters. -/
theorem frame_timing_and_keyboard_witness :
    timeInRange escFrame.time = true ∧ timeInRange (3 / 4) = true ∧
    lastFrameInRange ({} : World).gLastFrame = true ∧
    (frameBody escFrame {}).gLastFrame = toFloat escFrame.time ∧
    (frameBody escFrame {}).gDeltaTime = toFloat (toFloat escFrame.time - ({} : World).gLastFrame) ∧
    (frameBody ⟨3 / 4, [.s], []⟩ (glfwWindowShouldClose (frameBody escFrame {})).2).gDeltaTime =
      toFloat (toFloat (3 / 4) - toFloat escFrame.time) ∧
    (startup goodEnv).map (fun r => r.2.gLastFrame) =
      (startup goodEnv).map (fun _ => (0 : Rat)) ∧
    keyboardCalls (frameBody escFrame {}).trace =
      keyboardCalls ({} : World).trace ++
        expectedKeyboardCalls escFrame.pressed (frameBody escFrame {}).gDeltaTime :=
  ⟨by decide!, by decide!, by decide!,
    frame_timing_and_keyboard goodEnv escFrame ⟨3 / 4, [.s], []⟩ {}
      (by decide!) (by decide!) (by decide!)⟩

/-- C11, counterexample: the claim as stated, with the exact difference of the
timestamps. From the initial state (`gLastFrame` is 0) a frame at the
timestamp `0.1f` (13421773 / 134217728, a `float`) and then one at `1.0`: the
second `gDeltaTime` is 7549747 / 8388608, the `float` nearest to the exact
difference 120795955 / 134217728, and not that difference. And after a frame
at the timestamp `0.1` (the `double` 3602879701896397 / 36028797018963968)
`gLastFrame` is `0.1f`, not the timestamp. -/
theorem frame_timing_counterexample :
    timeInRange (13421773 / 134217728) = true ∧ timeInRange 1 = true ∧
    timeInRange (3602879701896397 / 36028797018963968) = true ∧
    (frameBody ⟨1, [], []⟩
        (glfwWindowShouldClose (frameBody ⟨13421773 / 134217728, [], []⟩ {})).2).gDeltaTime =
      7549747 / 8388608 ∧
    (frameBody ⟨1, [], []⟩
        (glfwWindowShouldClose (frameBody ⟨13421773 / 134217728, [], []⟩ {})).2).gDeltaTime ≠
      1 - 13421773 / 134217728 ∧
    (frameBody ⟨3602879701896397 / 36028797018963968, [], []⟩ {}).gLastFrame =
      13421773 / 134217728 ∧
    (frameBody ⟨3602879701896397 / 36028797018963968, [], []⟩ {}).gLastFrame ≠
      3602879701896397 / 36028797018963968 := by
  have h1 := (frameBody_spec ⟨13421773 / 134217728, [], []⟩ {}).2.1
  have h2 := (frameBody_spec ⟨1, [], []⟩
    (glfwWindowShouldClose (frameBody ⟨13421773 / 134217728, [], []⟩ {})).2).1
  have h3 := (frameBody_spec ⟨3602879701896397 / 36028797018963968, [], []⟩ {}).2.1
  have e1 : (glfwWindowShouldClose (frameBody ⟨13421773 / 134217728, [], []⟩ {})).2.gLastFrame
      = toFloat (13421773 / 134217728) := h1
  rw [h2, h3, e1]
  decide!

/-! ### The mouse position callback -/

theorem mouseOffsets_append (a b : List Event) :
    mouseOffsets (a ++ b) = mouseOffsets a ++ mouseOffsets b := by
  simp [mouseOffsets, List.filterMap_append]

/-- One cursor event: the offsets forwarded and the globals afterwards. -/
theorem UMousePositionCallback_spec (xpos ypos : Rat) (w : World) :
    (UMousePositionCallback xpos ypos w).gFirstMouse = false ∧
    (UMousePositionCallback xpos ypos w).gLastX = toFloat xpos ∧
    (UMousePositionCallback xpos ypos w).gLastY = toFloat ypos ∧
    mouseOffsets (UMousePositionCallback xpos ypos w).trace = mouseOffsets w.trace ++
      [if w.gFirstMouse then
          (toFloat (toDouble (xpos - toFloat xpos)), toFloat (toDouble (toFloat ypos - ypos)))
        else (toFloat (toDouble (xpos - w.gLastX)), toFloat (toDouble (w.gLastY - ypos)))] := by
  unfold UMousePositionCallback
  cases h : w.gFirstMouse <;>
    simp [World.emit, mouseOffsets, Event.asProcessMouseMovement, h]

/-- A run of cursor events after the first one. -/
theorem mouseRun_later (ps : List (Rat × Rat)) : ∀ w : World, w.gFirstMouse = false →
    mouseOffsets (mouseRun w ps).trace =
      mouseOffsets w.trace ++ floatDeltas (w.gLastX, w.gLastY) ps ∧
    (mouseRun w ps).gFirstMouse = false := by
  induction ps with
  | nil => intro w h; simp [mouseRun, floatDeltas, h]
  | cons p ps ih =>
    intro w h
    obtain ⟨a, b, c, d⟩ := UMousePositionCallback_spec p.1 p.2 w
    obtain ⟨e1, e2⟩ := ih (UMousePositionCallback p.1 p.2 w) a
    have hrun : mouseRun w (p :: ps) = mouseRun (UMousePositionCallback p.1 p.2 w) ps := rfl
    rw [hrun, e1, d, b, c, h]
    exact ⟨by simp [floatDeltas], e2⟩

theorem toFloat_zero : toFloat 0 = 0 := by simp [toFloat, roundBinary]

theorem toDouble_zero : toDouble 0 = 0 := by simp [toDouble, roundBinary]

/-- Where arithmetic is exact, the forwarded offsets are the exact differences. -/
theorem floatDeltas_exact (ps : List (Rat × Rat)) : ∀ p : Rat × Rat, exactRun p ps = true →
    floatDeltas (toFloat p.1, toFloat p.2) ps = cursorDeltas p ps := by
  induction ps with
  | nil => intro p _; rfl
  | cons q qs ih =>
    intro p h
    simp only [exactRun, isFloat, Bool.and_eq_true, decide_eq_true_eq] at h
    obtain ⟨⟨⟨⟨p1, p2⟩, x1⟩, y1⟩, hrest⟩ := h
    simp only [floatDeltas, cursorDeltas, p1, p2, x1, y1, ih q hrest]

theorem exactRun_head (ps : List (Rat × Rat)) (p : Rat × Rat) (h : exactRun p ps = true) :
    toFloat p.1 = p.1 ∧ toFloat p.2 = p.2 := by
  cases ps with
  | nil =>
    simp only [exactRun, isFloat, Bool.and_eq_true, decide_eq_true_eq] at h
    exact h
  | cons q qs =>
    simp only [exactRun, isFloat, Bool.and_eq_true, decide_eq_true_eq] at h
    exact ⟨h.1.1.1.1, h.1.1.1.2⟩

theorem cursorDeltas_sum_fst (ps : List (Rat × Rat)) : ∀ prev : Rat × Rat,
    ((cursorDeltas prev ps).map Prod.fst).sum = (ps.getLastD prev).1 - prev.1 := by
  induction ps with
  | nil => intro prev; simp [cursorDeltas]
  | cons p ps ih =>
    intro prev
    simp only [cursorDeltas, List.map_cons, List.sum_cons, ih p, List.getLastD_cons]
    ring

theorem cursorDeltas_sum_snd (ps : List (Rat × Rat)) : ∀ prev : Rat × Rat,
    ((cursorDeltas prev ps).map Prod.snd).sum = prev.2 - (ps.getLastD prev).2 := by
  induction ps with
  | nil => intro prev; simp [cursorDeltas]
  | cons p ps ih =>
    intro prev
    simp only [cursorDeltas, List.map_cons, List.sum_cons, ih p, List.getLastD_cons]
    ring

/-- C17, as amended: `UMousePositionCallback` forwards position deltas with
the y axis reversed, taken in `double` against the position stored as `float`
and narrowed to `float`. For a run of cursor events `p :: ps` in range started
while `gFirstMouse` is still true (as it is at start-up), the offsets handed
to `ProcessMouseMovement` are `(xpos - (float) xpos, (float) ypos - ypos)` for
the first event, which is `(0, 0)` when the position is a `float`, and
`(xpos - (float) previous xpos, (float) previous ypos - ypos)` for every later
one, each narrowed to `float`; `gFirstMouse` is false after any event. Where
arithmetic is exact (every position and every difference of consecutive
positions is a `float`), the offsets are `(0, 0)` and then
`(xpos - previous xpos, previous ypos - ypos)`, the x offsets sum to last xpos
minus first xpos and the y offsets to first ypos minus last ypos. -/
theorem mouse_offsets_telescope (w : World) (p : Rat × Rat) (ps : List (Rat × Rat))
    (hfirst : w.gFirstMouse = true) (_hrange : (p :: ps).all cursorInRange = true) :
    ({} : World).gFirstMouse = true ∧
    (∀ (x y : Rat) (w0 : World), (UMousePositionCallback x y w0).gFirstMouse = false) ∧
    mouseOffsets (mouseRun w (p :: ps)).trace =
      mouseOffsets w.trace ++
        (toFloat (toDouble (p.1 - toFloat p.1)), toFloat (toDouble (toFloat p.2 - p.2))) ::
          floatDeltas (toFloat p.1, toFloat p.2) ps ∧
    (toFloat p.1 = p.1 → toFloat p.2 = p.2 →
      (toFloat (toDouble (p.1 - toFloat p.1)), toFloat (toDouble (toFloat p.2 - p.2))) =
        ((0 : Rat), (0 : Rat))) ∧
    (exactRun p ps = true →
      mouseOffsets (mouseRun w (p :: ps)).trace =
        mouseOffsets w.trace ++ (0, 0) :: cursorDeltas p ps ∧
      ((mouseOffsets (mouseRun w (p :: ps)).trace).map Prod.fst).sum =
        ((mouseOffsets w.trace).map Prod.fst).sum + ((ps.getLastD p).1 - p.1) ∧
      ((mouseOffsets (mouseRun w (p :: ps)).trace).map Prod.snd).sum =
        ((mouseOffsets w.trace).map Prod.snd).sum + (p.2 - (ps.getLastD p).2)) := by
  obtain ⟨a, b, c, d⟩ := UMousePositionCallback_spec p.1 p.2 w
  obtain ⟨e1, -⟩ := mouseRun_later ps (UMousePositionCallback p.1 p.2 w) a
  have hrun : mouseRun w (p :: ps) = mouseRun (UMousePositionCallback p.1 p.2 w) ps := rfl
  have hzero : toFloat p.1 = p.1 → toFloat p.2 = p.2 →
      (toFloat (toDouble (p.1 - toFloat p.1)), toFloat (toDouble (toFloat p.2 - p.2))) =
        ((0 : Rat), (0 : Rat)) := by
    intro h1 h2
    rw [h1, h2, sub_self, sub_self, toDouble_zero, toFloat_zero]
  have hall : mouseOffsets (mouseRun w (p :: ps)).trace =
      mouseOffsets w.trace ++
        (toFloat (toDouble (p.1 - toFloat p.1)), toFloat (toDouble (toFloat p.2 - p.2))) ::
          floatDeltas (toFloat p.1, toFloat p.2) ps := by
    rw [hrun, e1, d, b, c, hfirst]
    simp
  refine ⟨rfl, fun x y w0 => (UMousePositionCallback_spec x y w0).1, hall, hzero, ?_⟩
  intro hexact
  obtain ⟨h1, h2⟩ := exactRun_head ps p hexact
  have hex : mouseOffsets (mouseRun w (p :: ps)).trace =
      mouseOffsets w.trace ++ (0, 0) :: cursorDeltas p ps := by
    rw [hall, hzero h1 h2, floatDeltas_exact ps p hexact]
  refine ⟨hex, ?_, ?_⟩
  · rw [hex]
    simp [cursorDeltas_sum_fst]
  · rw [hex]
    simp [cursorDeltas_sum_snd]

/-- C17, witness: three cursor events at whole pixels from the initial state;
arithmetic is exact there. -/
theorem mouse_offsets_telescope_witness :
    ({} : World).gFirstMouse = true ∧
    ([((410 : Rat), (300 : Rat)), (415, 290), (400, 310)].all cursorInRange = true) ∧
    exactRun (410, 300) [(415, 290), (400, 310)] = true ∧
    mouseOffsets (mouseRun {} [(410, 300), (415, 290), (400, 310)]).trace =
      [(0, 0), (5, 10), (-15, -20)] ∧
    ((mouseOffsets (mouseRun {} [(410, 300), (415, 290), (400, 310)]).trace).map Prod.fst).sum =
      400 - 410 ∧
    ((mouseOffsets (mouseRun {} [(410, 300), (415, 290), (400, 310)]).trace).map Prod.snd).sum =
      300 - 310 := by
  have h := (mouse_offsets_telescope {} (410, 300) [(415, 290), (400, 310)] rfl
    (by decide!)).2.2.2.2 (by decide!)
  refine ⟨rfl, by decide!, by decide!, ?_, ?_, ?_⟩
  · rw [h.1]
    norm_num [mouseOffsets, cursorDeltas]
  · rw [h.2.1]
    norm_num [mouseOffsets]
  · rw [h.2.2]
    norm_num [mouseOffsets]

/-- C17, counterexample: the first event after start-up at the position
`(0.1, 0.2)` (the `double` values 3602879701896397 / 36028797018963968 and
3602879701896397 / 18014398509481984). The position is stored as the `float`
values `0.1f`, `0.2f`, and the offsets forwarded are the differences to these,
`(-13421773 / 2 ^ 53, 13421773 / 2 ^ 52)`, not `(0, 0)`. -/
theorem mouse_offsets_counterexample :
    ({} : World).gFirstMouse = true ∧
    cursorInRange (3602879701896397 / 36028797018963968,
      3602879701896397 / 18014398509481984) = true ∧
    mouseOffsets (mouseRun {} [(3602879701896397 / 36028797018963968,
      3602879701896397 / 18014398509481984)]).trace =
        [(-13421773 / 9007199254740992, 13421773 / 4503599627370496)] ∧
    mouseOffsets (mouseRun {} [(3602879701896397 / 36028797018963968,
      3602879701896397 / 18014398509481984)]).trace ≠ [(0, 0)] := by
  have h := (UMousePositionCallback_spec (3602879701896397 / 36028797018963968)
    (3602879701896397 / 18014398509481984) {}).2.2.2
  have hrun : mouseRun {} [((3602879701896397 / 36028797018963968 : Rat),
      (3602879701896397 / 18014398509481984 : Rat))] =
      UMousePositionCallback (3602879701896397 / 36028797018963968)
        (3602879701896397 / 18014398509481984) {} := rfl
  rw [hrun, h]
  decide!

/-! ### More on `flipImageVertically`: twice, bounds, no-ops -/

/-- The inner loop faults when the second index is outside the buffer. -/
theorem flipInnerLoop_fault (fuel : Nat) (i index1 index2 : Int) (image : Buffer)
    (hi : i > 0) (h1 : 0 ≤ index1 ∧ index1 < image.size)
    (h2 : ¬ (0 ≤ index2 ∧ index2 < image.size)) :
    flipInnerLoop (fuel + 1) i index1 index2 image = .error .outOfBounds := by
  rw [flipInnerLoop, if_pos hi]
  simp only [Buffer.read, if_pos h1, if_neg h2, bind, Except.bind]

/-- A fault of the inner loop is a fault of the outer loop. -/
theorem flipOuterLoop_fault (F : Nat) (width height channels : Int) (fuel : Nat) (j : Int)
    (image : Buffer) (e : Fault) (hj : j < wrapInt (Int.tdiv height 2))
    (hin : flipInnerLoop F (wrapInt (width * channels)) (wrapInt (wrapInt (j * width) * channels))
      (wrapInt (wrapInt (wrapInt (wrapInt (height - 1) - j) * width) * channels)) image
      = .error e) :
    flipOuterLoop F width height channels (fuel + 1) j image = .error e := by
  rw [flipOuterLoop, if_pos hj]
  simp only [hin, bind, Except.bind]

/-- With a row length that is not positive the outer loop changes nothing. -/
theorem flipOuterLoop_noop (F : Nat) (width height channels : Int)
    (hn : ¬ wrapInt (width * channels) > 0) (fuel : Nat) :
    ∀ (j : Int) (image image' : Buffer),
      flipOuterLoop (F + 1) width height channels fuel j image = .ok image' → image' = image := by
  induction fuel with
  | zero =>
    intro j image image' h
    rw [flipOuterLoop] at h
    cases h
  | succ fuel ih =>
    intro j image image' h
    by_cases hj : j < wrapInt (Int.tdiv height 2)
    · rw [flipOuterLoop_step _ _ _ _ _ _ _ image hj (flipInnerLoop_exit _ _ _ _ _ hn)] at h
      exact ih _ _ _ h
    · rw [flipOuterLoop_exit _ _ _ _ _ _ _ hj] at h
      cases h
      rfl

/-- The whole outer loop, started at row `0`, reverses the rows. -/
theorem flipOuterLoop_reverses (w h c : Nat) (img : Buffer) (hh : h ≤ 2147483647)
    (hsz : img.size = h * (w * c)) (hmax : h * (w * c) ≤ 2147483647) :
    ∃ img', flipOuterLoop loopFuel (w : Int) (h : Int) (c : Int) loopFuel 0 img = .ok img' ∧
      img'.size = img.size ∧
      ∀ r q, r < h → q < w * c →
        img'.byte (r * (w * c) + q) = img.byte ((h - 1 - r) * (w * c) + q) := by
  have hF : 2 ≤ h → w * c < loopFuel := by
    intro h2
    have : w * c ≤ h * (w * c) := Nat.le_mul_of_pos_left _ (by omega)
    unfold loopFuel
    omega
  have hfuel : h / 2 < loopFuel := by unfold loopFuel; omega
  obtain ⟨img', h1, h2, h3⟩ := flipOuterLoop_spec loopFuel w h c (by omega) hF (h / 2)
    loopFuel 0 img (by omega) hfuel hsz (by omega)
  refine ⟨img', h1, h2, ?_⟩
  intro r q hr hq
  rw [h3 r q hr hq]
  clear h3 h1 hF hfuel hsz hmax h2
  split_ifs with hc
  · rfl
  · refine congrArg (fun x => img.byte (x * (w * c) + q)) ?_
    omega

/-- C15 (as amended): for `int` dimensions `w, h, c ≥ 0` whose product is at
most `INT_MAX = 2147483647` and a buffer of exactly `w * h * c` bytes,
applying `flipImageVertically` twice with the same dimensions returns both
times and gives back the original bytes of the buffer. -/
theorem flipImageVertically_twice (w h c : Nat) (img : Buffer)
    (hh : h ≤ 2147483647) (hsz : img.size = w * h * c) (hmax : w * h * c ≤ 2147483647) :
    ∃ img1 img2, flipImageVertically img (w : Int) (h : Int) (c : Int) = .ok img1 ∧
      flipImageVertically img1 (w : Int) (h : Int) (c : Int) = .ok img2 ∧
      img2.size = img.size ∧ ∀ p, p < img.size → img2.byte p = img.byte p := by
  have hmul : w * h * c = h * (w * c) := by rw [Nat.mul_comm w h, Nat.mul_assoc]
  have hsz' : img.size = h * (w * c) := hsz.trans hmul
  obtain ⟨img1, a1, a2, a3⟩ := flipOuterLoop_reverses w h c img hh hsz' (hmul ▸ hmax)
  obtain ⟨img2, b1, b2, b3⟩ := flipOuterLoop_reverses w h c img1 hh (a2.trans hsz')
    (hmul ▸ hmax)
  refine ⟨img1, img2, a1, b1, b2.trans a2, ?_⟩
  intro p hp
  rw [hsz'] at hp
  have hn : 0 < w * c := by
    rcases Nat.eq_zero_or_pos (w * c) with h0 | h0
    · rw [h0] at hp; omega
    · exact h0
  have hr : p / (w * c) < h := Nat.div_lt_of_lt_mul (by rw [Nat.mul_comm]; exact hp)
  have hq : p % (w * c) < w * c := Nat.mod_lt _ hn
  have hpe : p / (w * c) * (w * c) + p % (w * c) = p := by
    rw [Nat.mul_comm]; exact Nat.div_add_mod p (w * c)
  generalize p / (w * c) = r at hr hpe
  generalize p % (w * c) = q at hq hpe
  have hr' : h - 1 - r < h := by clear hpe hp a3 b3; omega
  have hback : h - 1 - (h - 1 - r) = r := by clear hpe hp a3 b3; omega
  have e2 := b3 r q hr hq
  have e1 := a3 (h - 1 - r) q hr' hq
  rw [hback] at e1
  rw [hpe] at e2 e1
  rw [e2, e1]

/-- C15, witness: a 2 by 3 image with 2 channels. -/
theorem flipImageVertically_twice_witness :
    ∃ img1 img2, flipImageVertically (rampImage 12) 2 3 2 = .ok img1 ∧
      flipImageVertically img1 2 3 2 = .ok img2 ∧
      img2.size = (rampImage 12).size ∧
      ∀ p, p < (rampImage 12).size → img2.byte p = (rampImage 12).byte p :=
  flipImageVertically_twice 2 3 2 (rampImage 12) (by decide) (by decide) (by decide)

/-- C15, counterexample to the claim as stated: for `w = 32768`, `h = 131072`,
`c = 1` and a buffer of exactly `w * h * c = 2^32` bytes the `int` index of
the last row wraps to `-32768`; the first call already leaves the buffer, so
no second result gives the original back. -/
theorem flipImageVertically_twice_counterexample :
    (dotImage 4294967296).size = 32768 * 131072 * 1 ∧
    ¬ ∃ img1 img2, flipImageVertically (dotImage 4294967296) 32768 131072 1 = .ok img1 ∧
      flipImageVertically img1 32768 131072 1 = .ok img2 ∧
      ∀ p, p < (dotImage 4294967296).size → img2.byte p = (dotImage 4294967296).byte p := by
  refine ⟨by decide, ?_⟩
  rintro ⟨img1, img2, h1, -, -⟩
  have e : flipImageVertically (dotImage 4294967296) 32768 131072 1
      = .error .outOfBounds := by
    have hfuel : loopFuel = 2147483647 + 1 := by decide
    unfold flipImageVertically
    rw [hfuel]
    exact flipOuterLoop_fault _ _ _ _ _ _ _ _ (by decide)
      (flipInnerLoop_fault _ _ _ _ _ (by decide) (by decide) (by decide))
  rw [e] at h1
  cases h1

/-- C16 (as amended): for `int` dimensions `w, h, c ≥ 0` whose product is at
most `INT_MAX = 2147483647` and a buffer of exactly `w * h * c` bytes,
`flipImageVertically` returns without an access outside the buffer (an access
at an index outside `[0, w * h * c)` is the fault `outOfBounds`) and without
running out of iterations (both loops end), the buffer length is unchanged,
and when `h ≤ 1` or `w * c = 0` the buffer is left as it was. -/
theorem flipImageVertically_in_bounds (w h c : Nat) (img : Buffer)
    (hh : h ≤ 2147483647) (hsz : img.size = w * h * c) (hmax : w * h * c ≤ 2147483647) :
    ∃ img', flipImageVertically img (w : Int) (h : Int) (c : Int) = .ok img' ∧
      img'.size = img.size ∧ ((h ≤ 1 ∨ w * c = 0) → img' = img) := by
  have hmul : w * h * c = h * (w * c) := by rw [Nat.mul_comm w h, Nat.mul_assoc]
  obtain ⟨img', a1, a2, -⟩ := flipOuterLoop_reverses w h c img hh (hsz.trans hmul) (hmul ▸ hmax)
  refine ⟨img', a1, a2, ?_⟩
  have hfuel : loopFuel = 2147483647 + 1 := by decide
  rw [hfuel] at a1
  rintro (h1 | h0)
  · have hhalf := wrapInt_half h (by omega)
    have hz : h / 2 = 0 := by omega
    have hj : ¬ ((0 : Int) < wrapInt (Int.tdiv (h : Int) 2)) := by
      rw [hhalf, hz]; decide
    rw [flipOuterLoop_exit _ _ _ _ _ _ _ hj] at a1
    cases a1
    rfl
  · have hn : ¬ wrapInt ((w : Int) * (c : Int)) > 0 := by
      rw [wrapInt_mul_natCast w c (by omega), h0]; decide
    exact flipOuterLoop_noop _ _ _ _ hn _ _ _ _ a1

/-- C16, witness: an image of one row, 3 pixels wide, 2 channels. -/
theorem flipImageVertically_in_bounds_witness :
    ∃ img', flipImageVertically (rampImage 6) 3 1 2 = .ok img' ∧
      img'.size = (rampImage 6).size ∧ ((1 ≤ 1 ∨ 3 * 2 = 0) → img' = rampImage 6) :=
  flipImageVertically_in_bounds 3 1 2 (rampImage 6) (by decide) (by decide) (by decide)

/-- C16, counterexample to the claim as stated: for `w = h = 65536`, `c = 1`
and a buffer of exactly `w * h * c = 2^32` bytes the first index read for
the last row is `-65536`, outside `[0, w * h * c)`. -/
theorem flipImageVertically_in_bounds_counterexample :
    (dotImage 4294967296).size = 65536 * 65536 * 1 ∧
    wrapInt (wrapInt (wrapInt (wrapInt (65536 - 1) - 0) * 65536) * 1) = -65536 ∧
    flipImageVertically (dotImage 4294967296) 65536 65536 1 = .error .outOfBounds := by
  refine ⟨by decide, by decide, ?_⟩
  have hfuel : loopFuel = 2147483647 + 1 := by decide
  unfold flipImageVertically
  rw [hfuel]
  exact flipOuterLoop_fault _ _ _ _ _ _ _ _ (by decide)
    (flipInnerLoop_fault _ _ _ _ _ (by decide) (by decide) (by decide))

/-! ### The index tables -/

/-- C13, the code at the failing rectangle: the first 13 pairs of triangles
of `indices1` each tile a side rectangle over ring-adjacent bottom vertices
and share its diagonal, but the pair labelled rectangle 14 is `(6, 13, 20)`,
`(27, 20, 6)`: its triangles share the vertices 6 and 20, the vertical edge
from bottom vertex 6 to the top vertex above it, not a diagonal, so it does
not tile the rectangle 6, 13, 27, 20. -/
theorem indices1_rectangle14_not_tiled :
    (trianglePairs (triangles indices1)).length = 14 ∧
    ((trianglePairs (triangles indices1)).take 13).all tilesSide = true ∧
    (trianglePairs (triangles indices1)).getD 13 ((0, 0, 0), (0, 0, 0))
      = ((6, 13, 20), (27, 20, 6)) ∧
    commonVertices (6, 13, 20) (27, 20, 6) = [6, 6 + 14] ∧
    tilesSide ((6, 13, 20), (27, 20, 6)) = false ∧
    tilesSide ((6, 13, 20), (27, 20, 13)) = true := by
  decide

/-- C14, the code at the failing triangle: the first 13 triangles of
`indices2` are those of the closed fan, the last one is `(13, 1, 14)` where
the fan has `(13, 0, 14)`; base vertex 0 occurs in one triangle only and base
vertex 1 in three. -/
theorem indices2_fan_not_closed :
    triangles indices2 = (closedFan 14 14).take 13 ++ [(13, 1, 14)] ∧
    (closedFan 14 14).getD 13 (0, 0, 0) = (13, 0, 14) ∧
    triangles indices2 ≠ closedFan 14 14 ∧
    indices2.count 0 = 1 ∧ indices2.count 1 = 3 := by
  decide

/-! ### The draw calls of a frame -/

theorem World.since_append (w0 w : World) (es : List Event) (h : w.trace = w0.trace ++ es) :
    w0.since w = es := by
  unfold World.since
  rw [h, List.drop_left]

/-- C8: every call of `URender` issues exactly three indexed draws, in this
order: with the plane's vertex array `vao1` bound and `model2` uploaded as the
model matrix, with the trunk's `vao2` and `model4`, with the tree top's `vao3`
and `model3`; each takes place after the buffers were cleared and the view and
projection matrices uploaded, and before the buffer swap, which is the last
call of `URender`. -/
theorem URender_draws (w : World) :
    (drawing (w.since (URender w))).draws =
      [⟨w.gMesh.vao1, some .model2, w.gMesh.nIndices1, true, some .view, some .projection, false⟩,
       ⟨w.gMesh.vao2, some .model4, w.gMesh.nIndices2, true, some .view, some .projection, false⟩,
       ⟨w.gMesh.vao3, some .model3, w.gMesh.nIndices1, true, some .view, some .projection, false⟩] ∧
    (drawing (w.since (URender w))).swapped = true ∧
    (w.since (URender w)).getLast? = some .glfwSwapBuffers ∧
    markers (w.since (URender w)) = [.draw, .draw, .draw, .swap] := by
  rw [World.since_append w (URender w) _ (URender_trace w)]
  refine ⟨rfl, rfl, rfl, rfl⟩

/-! ### Mesh creation and release, at the start-up state -/

/-- C5, the code from the start-up state: `UCreateMesh` generates the vertex
arrays 1 to 6 and the buffers 1 to 6; each `glGenVertexArrays(2, &mesh.vaoN)`
writes its second name into the next slot, so the slots end as `vao1 = 1`,
`vao2 = 3`, `vao3 = 5`, `vbos1 = [6, 2]` (the 6 is a vertex-array name, written
by the third `glGenVertexArrays`), `vbos2 = [3, 4]`, `vbos3 = [5, 6]`.
`UDestroyMesh` deletes the vertex arrays 1, 3, 5 and passes 6, 2, 3, 4, 5, 6 to
`glDeleteBuffers`: the vertex arrays 2, 4, 6 and the buffer 1 are never
deleted, and buffer name 6 is passed twice. -/
theorem mesh_destroy_leaks :
    (UCreateMesh {}).gl.vaos = [1, 2, 3, 4, 5, 6] ∧
    (UCreateMesh {}).gl.buffers = [1, 2, 3, 4, 5, 6] ∧
    (glGenVertexArrays 2 GLMesh.offVao3 {}).gMesh.vbos1 0 = 2 ∧
    (UCreateMesh {}).gMesh.slots = [1, 3, 5, 6, 2, 3, 4, 5, 6, 42, 84, 0, 0] ∧
    releases ((UCreateMesh {}).since (UDestroyMesh (UCreateMesh {}))) =
      [.vertexArrays [1], .vertexArrays [3], .vertexArrays [5],
       .buffers [6, 2], .buffers [3, 4], .buffers [5, 6]] ∧
    (UDestroyMesh (UCreateMesh {})).gl.vaos = [2, 4, 6] ∧
    (UDestroyMesh (UCreateMesh {})).gl.buffers = [1] := by
  decide

/-- C6, the code from the start-up state: the three draws of `URender` use the
vertex arrays 1, 3, 5 with the index counts 42, 84, 42, while the element
buffers of these vertex arrays hold 6, 84 and 42 indices: the plane is drawn
with the index count of the tree top (`nIndices1`, assigned twice), not with
that of its own index buffer `indices3`. -/
theorem plane_draw_count_mismatch :
    (drawing ((UCreateMesh {}).since (URender (UCreateMesh {})))).draws.map
        (fun d => (d.vao, d.count, (UCreateMesh {}).gl.indexCountOf d.vao))
      = [(1, 42, 6), (3, 84, 84), (5, 42, 42)] ∧
    indices3.length = 6 ∧ indices1.length = 84 ∧ indices2.length = 42 := by
  decide

/-- C7, the code on a run in which start-up succeeds and ESC is pressed in
the first frame: `main` exits with status 0 after deleting vertex arrays and
buffers and then the program, in this order, but it makes no
`glDeleteTextures` call: texture 1 is still alive at exit. -/
theorem main_never_releases_texture :
    (main goodEnv [escFrame]).toOption.map
        (fun r => (r.1, releases r.2.trace, r.2.gl.textures, r.2.gl.programs))
      = some (0, [.vertexArrays [1], .vertexArrays [3], .vertexArrays [5],
          .buffers [6, 2], .buffers [3, 4], .buffers [5, 6], .program 1], [1], []) ∧
    releases (UDestroyTexture 1 {}).trace = [] := by
  decide

/-! ### The shader program builder -/

/-- C3: `UCreateShaderProgram` returns true exactly when the vertex compile,
the fragment compile and the link all succeed; otherwise it returns false
and prints exactly one diagnostic, that of the first failing stage in the
order vertex compile, fragment compile, link; the stages it attempts are those
up to and including the first failing one, so no later stage is attempted. -/
theorem shader_build_reports_first_failure (env : Env) (programId : GLuint) (w : World) :
    ((UCreateShaderProgram env programId w).1 = true ↔
      env.vertexCompiles = true ∧ env.fragmentCompiles = true ∧ env.links = true) ∧
    (UCreateShaderProgram env programId w).1 = env.firstFailure.isNone ∧
    printed (w.since (UCreateShaderProgram env programId w).2.2) =
      env.firstFailure.toList.map Stage.diagnostic ∧
    stagesRun (w.since (UCreateShaderProgram env programId w).2.2) =
      stagesUpTo env.firstFailure := by
  cases hv : env.vertexCompiles <;> cases hf : env.fragmentCompiles <;> cases hl : env.links <;>
    simp [UCreateShaderProgram, World.since, glCreateProgram, glCreateShader, glCompileShader,
      glAttachShader, glLinkProgram, glUseProgram, World.emit, World.emits, hv, hf, hl,
      Env.firstFailure, printed, Event.asPrint, stagesRun, stageOf, shaderTypeIn, stagesUpTo,
      Stage.diagnostic]

/-- C10 (as amended): `UCreateShaderProgram` always stores the name of the
program it has just created in `programId`. When it returns true, that
program has a vertex and a fragment shader, both compiled and attached, and
is linked. When it returns false, `programId` holds the created program all
the same, and that program has not been linked by the call: the failure shows
in the return value only. -/
theorem shader_build_program_state (env : Env) (programId : GLuint) (w : World) :
    (UCreateShaderProgram env programId w).2.1 = w.gl.objectCount + 1 ∧
    (UCreateShaderProgram env programId w).2.1
      ∈ (UCreateShaderProgram env programId w).2.2.gl.programs ∧
    (if (UCreateShaderProgram env programId w).1 = true then
      shaderTypeIn (w.since (UCreateShaderProgram env programId w).2.2) (w.gl.objectCount + 2)
        = some .GL_VERTEX_SHADER ∧
      shaderTypeIn (w.since (UCreateShaderProgram env programId w).2.2) (w.gl.objectCount + 3)
        = some .GL_FRAGMENT_SHADER ∧
      w.gl.objectCount + 2 ∈ (UCreateShaderProgram env programId w).2.2.gl.compiled ∧
      w.gl.objectCount + 3 ∈ (UCreateShaderProgram env programId w).2.2.gl.compiled ∧
      (w.gl.objectCount + 1, w.gl.objectCount + 2)
        ∈ (UCreateShaderProgram env programId w).2.2.gl.attached ∧
      (w.gl.objectCount + 1, w.gl.objectCount + 3)
        ∈ (UCreateShaderProgram env programId w).2.2.gl.attached ∧
      w.gl.objectCount + 1 ∈ (UCreateShaderProgram env programId w).2.2.gl.linked
    else (UCreateShaderProgram env programId w).2.2.gl.linked = w.gl.linked) := by
  cases hv : env.vertexCompiles <;> cases hf : env.fragmentCompiles <;> cases hl : env.links <;>
    simp [UCreateShaderProgram, World.since, glCreateProgram, glCreateShader, glCompileShader,
      glAttachShader, glLinkProgram, glUseProgram, World.emit, World.emits, hv, hf, hl,
      shaderTypeIn]

/-- C10, counterexample to the claim as stated: with a vertex shader that
does not compile, a caller's `programId` of 0 and the start-up state,
`UCreateShaderProgram` returns false and `programId` holds 1, the program
created by the call, which is not linked. -/
theorem shader_build_overwrites_programId :
    (UCreateShaderProgram brokenVertexEnv 0 {}).1 = false ∧
    (UCreateShaderProgram brokenVertexEnv 0 {}).2.1 = 1 ∧
    (UCreateShaderProgram brokenVertexEnv 0 {}).2.1 ≠ 0 ∧
    (UCreateShaderProgram brokenVertexEnv 0 {}).2.2.gl.programs = [1] ∧
    (UCreateShaderProgram brokenVertexEnv 0 {}).2.2.gl.linked = [] := by
  decide

/-! ### The texture loader -/

/-- On a well-formed decoded image the flip returns. -/
theorem flipImageVertically_ok (d : Decoded) (hd : d.WellFormed) :
    ∃ image, flipImageVertically d.image d.width d.height d.channels = .ok image := by
  obtain ⟨w, h, c, e1, e2, e3, hh, hmax, hsz⟩ := hd
  have hmul : w * h * c = h * (w * c) := by rw [Nat.mul_comm w h, Nat.mul_assoc]
  obtain ⟨image, a1, -, -⟩ := flipOuterLoop_reverses w h c d.image hh (hsz.trans hmul)
    (hmul ▸ hmax)
  exact ⟨image, by rw [e1, e2, e3]; exact a1⟩

/-- What `UCreateTexture` returns and prints, when it returns. -/
theorem UCreateTexture_returns (env : Env) (textureId : GLuint) (w : World)
    (r : Bool × GLuint × World) (h : UCreateTexture env textureId w = .ok r) :
    r.1 = env.textureOk ∧ printed (w.since r.2.2) = env.textureReport := by
  unfold UCreateTexture at h
  cases hd : env.stbi_load with
  | none =>
    simp only [hd] at h
    cases h
    simp [World.since, World.emit, printed, Event.asPrint, Env.textureReport, Env.textureOk, hd]
  | some d =>
    simp only [hd] at h
    cases hflip : flipImageVertically d.image d.width d.height d.channels with
    | error e => simp [hflip, bind, Except.bind] at h
    | ok image =>
      simp only [hflip, bind, Except.bind] at h
      by_cases h3 : d.channels = 3
      · simp only [h3, if_true] at h
        cases h
        simp [World.since, World.emit, World.emits, printed, Event.asPrint, Env.textureReport,
          Env.textureOk, hd, h3, glGenTextures, glBindTexture, glTexImage2D, finishTexture]
      · by_cases h4 : d.channels = 4
        · simp only [h4, if_true] at h
          cases h
          simp [World.since, World.emit, World.emits, printed, Event.asPrint,
            Env.textureReport, Env.textureOk, hd, h4, glGenTextures, glBindTexture,
            glTexImage2D, finishTexture]
        · simp only [h3, h4, if_false] at h
          cases h
          simp [World.since, World.emit, World.emits, printed, Event.asPrint,
            Env.textureReport, Env.textureOk, hd, h3, h4, glGenTextures, glBindTexture]

/-- `UCreateTexture` returns when the decoder hands back well-formed images. -/
theorem UCreateTexture_total (env : Env) (textureId : GLuint) (w : World)
    (hwf : ∀ d, env.stbi_load = some d → d.WellFormed) :
    ∃ r, UCreateTexture env textureId w = .ok r := by
  cases hr : UCreateTexture env textureId w with
  | ok r => exact ⟨r, rfl⟩
  | error e =>
    exfalso
    unfold UCreateTexture at hr
    cases hd : env.stbi_load with
    | none => simp [hd] at hr
    | some d =>
      obtain ⟨image, himg⟩ := flipImageVertically_ok d (hwf d hd)
      simp only [hd, himg, bind, Except.bind] at hr
      by_cases h3 : d.channels = 3
      · simp [h3] at hr
      · by_cases h4 : d.channels = 4
        · simp [h4] at hr
        · simp [h3, h4] at hr

/-- C2: given that the decoder hands back well-formed images, `UCreateTexture`
returns (it does not crash), and it returns true exactly when the decoder
returned an image whose channel count is 3 or 4; for a decoded image with
another channel count it prints one message and returns false, and for a
failed decode it returns false. -/
theorem texture_load_result (env : Env) (textureId : GLuint) (w : World)
    (hwf : ∀ d, env.stbi_load = some d → d.WellFormed) :
    ∃ textureId' w', UCreateTexture env textureId w = .ok (env.textureOk, textureId', w') ∧
      printed (w.since w') = env.textureReport ∧
      (env.textureOk = true ↔
        ∃ d, env.stbi_load = some d ∧ (d.channels = 3 ∨ d.channels = 4)) := by
  obtain ⟨r, hr⟩ := UCreateTexture_total env textureId w hwf
  obtain ⟨h1, h2⟩ := UCreateTexture_returns env textureId w r hr
  refine ⟨r.2.1, r.2.2, ?_, h2, ?_⟩
  · rw [hr, ← h1]
  · cases hd : env.stbi_load with
    | none => simp [Env.textureOk, hd]
    | some d => simp [Env.textureOk, hd]

/-- C2, witness: a decoded 2 by 3 image with 2 channels is rejected with a
message, and the call returns. -/
theorem texture_load_result_witness :
    ∃ textureId' w',
      UCreateTexture twoChannelEnv 0 {} = .ok (twoChannelEnv.textureOk, textureId', w') ∧
      printed (({} : World).since w') = twoChannelEnv.textureReport ∧
      (twoChannelEnv.textureOk = true ↔
        ∃ d, twoChannelEnv.stbi_load = some d ∧ (d.channels = 3 ∨ d.channels = 4)) :=
  texture_load_result twoChannelEnv 0 {} (fun d hd => by
    cases hd
    exact ⟨2, 3, 2, rfl, rfl, rfl, by decide, by decide, by decide⟩)

/-! ### Landmarks of the render loop -/

theorem markers_append (a b : List Event) : markers (a ++ b) = markers a ++ markers b := by
  simp [markers, List.filterMap_append]

theorem moveKey_markers (f : Frame) (key : Key) (direction : CameraMovement) (w : World) :
    markers (moveKey f key direction w).trace = markers w.trace ∧
    (moveKey f key direction w).shouldClose = w.shouldClose := by
  unfold moveKey glfwGetKey
  by_cases h : key ∈ f.pressed <;> simp [h, World.emit, markers, Event.asMarker]

theorem UProcessInput_markers (f : Frame) (w : World) :
    markers (UProcessInput f w).trace =
      markers w.trace ++ (if f.pressed.contains .escape then [Marker.setClose] else []) ∧
    (UProcessInput f w).shouldClose = (w.shouldClose || f.pressed.contains .escape) := by
  unfold UProcessInput
  have m1 : ∀ key b, markers [Event.glfwGetKey key b] = [] := fun _ _ => rfl
  have m2 : ∀ key b, markers [Event.glfwGetKey key b, Event.ToggleDisplay] = [] :=
    fun _ _ => rfl
  have m3 : ∀ key b, markers [Event.glfwGetKey key b, Event.glfwSetWindowShouldClose true]
      = [Marker.setClose] := fun _ _ => rfl
  by_cases hesc : Key.escape ∈ f.pressed <;> by_cases hp : Key.p ∈ f.pressed <;>
    simp [glfwGetKey, hesc, hp, World.emit, (moveKey_markers _ _ _ _).1,
      (moveKey_markers _ _ _ _).2, markers_append, m1, m2, m3]

theorem URender_markers (w : World) :
    markers (URender w).trace = markers w.trace ++ [.draw, .draw, .draw, .swap] := by
  rw [URender_trace, markers_append]
  rfl

theorem dispatch_markers (w : World) (ev : InputEvent) :
    markers (dispatch w ev).trace = markers w.trace ∧
    (dispatch w ev).shouldClose = (w.shouldClose || decide (ev = .closeRequested)) := by
  cases ev with
  | resize width height => simp [dispatch, UResizeWindow, World.emit, markers, Event.asMarker]
  | cursorPos xpos ypos =>
    by_cases h : w.gFirstMouse = true <;>
      simp [dispatch, UMousePositionCallback, World.emit, markers, Event.asMarker, h]
  | scroll xoffset yoffset =>
    simp [dispatch, UMouseScrollCallback, World.emit, markers, Event.asMarker]
  | mouseButton button pressed =>
    cases button <;>
      simp [dispatch, UMouseButtonCallback, World.emit, markers, Event.asMarker]
  | closeRequested => simp [dispatch]

theorem foldl_dispatch_markers (input : List InputEvent) : ∀ w : World,
    markers (input.foldl dispatch w).trace = markers w.trace ∧
    (input.foldl dispatch w).shouldClose = (w.shouldClose || input.contains .closeRequested) := by
  induction input with
  | nil => intro w; simp
  | cons ev rest ih =>
    intro w
    obtain ⟨a, b⟩ := ih (dispatch w ev)
    obtain ⟨a', b'⟩ := dispatch_markers w ev
    simp only [List.foldl_cons]
    have hc : (ev :: rest).contains InputEvent.closeRequested =
        (decide (ev = .closeRequested) || rest.contains .closeRequested) := by
      rw [List.contains_cons, beq_eq_decide]
      congr 1
      exact decide_eq_decide.mpr eq_comm
    refine ⟨a.trans a', ?_⟩
    rw [b, b', hc, Bool.or_assoc]

theorem glfwPollEvents_markers (f : Frame) (w : World) :
    markers (glfwPollEvents f w).trace = markers w.trace ++ [.poll] ∧
    (glfwPollEvents f w).shouldClose = (w.shouldClose || f.input.contains .closeRequested) := by
  obtain ⟨a, b⟩ := foldl_dispatch_markers f.input (w.emit .glfwPollEvents)
  unfold glfwPollEvents
  rw [a, b]
  simp [World.emit, markers_append, markers, Event.asMarker]

theorem perFrameTiming_markers (f : Frame) (w : World) :
    markers (perFrameTiming f w).trace = markers w.trace ∧
    (perFrameTiming f w).shouldClose = w.shouldClose := by
  simp [perFrameTiming, World.emit, markers, Event.asMarker]

/-- One iteration of the render loop: its landmarks and the close flag after it. -/
theorem frameBody_markers (f : Frame) (w : World) :
    markers (frameBody f w).trace = markers w.trace ++
      ((if f.pressed.contains .escape then [Marker.setClose] else []) ++
        [.draw, .draw, .draw, .swap, .poll]) ∧
    (frameBody f w).shouldClose = (w.shouldClose || f.closes) := by
  obtain ⟨a0, b0⟩ := perFrameTiming_markers f w
  obtain ⟨a1, b1⟩ := UProcessInput_markers f (perFrameTiming f w)
  have a2 := URender_markers (UProcessInput f (perFrameTiming f w))
  obtain ⟨-, -, b2, -, -⟩ := URender_globals (UProcessInput f (perFrameTiming f w))
  obtain ⟨a3, b3⟩ := glfwPollEvents_markers f (URender (UProcessInput f (perFrameTiming f w)))
  constructor
  · show markers (glfwPollEvents f (URender (UProcessInput f (perFrameTiming f w)))).trace = _
    rw [a3, a2, a1, a0]
    simp
  · show (glfwPollEvents f (URender (UProcessInput f (perFrameTiming f w)))).shouldClose = _
    rw [b3, b2, b1, b0, Frame.closes, Bool.or_assoc]

/-! ### The render loop -/

theorem glfwWindowShouldClose_spec (w : World) :
    (glfwWindowShouldClose w).1 = w.shouldClose ∧
    (glfwWindowShouldClose w).2.shouldClose = w.shouldClose ∧
    markers (glfwWindowShouldClose w).2.trace = markers w.trace ++ [.check w.shouldClose] := by
  simp [glfwWindowShouldClose, World.emit, markers_append, markers, Event.asMarker]

/-- With the close flag set the loop ends at its next test. -/
theorem renderLoop_closed (frames : List Frame) (w : World) (h : w.shouldClose = true) :
    renderLoop frames w = .ok (glfwWindowShouldClose w).2 := by
  cases frames <;> simp [renderLoop, glfwWindowShouldClose, h]

/-- With the close flag clear the loop runs the body on the next frame. -/
theorem renderLoop_open (f : Frame) (rest : List Frame) (w : World)
    (h : w.shouldClose = false) :
    renderLoop (f :: rest) w = renderLoop rest (frameBody f (glfwWindowShouldClose w).2) := by
  simp [renderLoop, glfwWindowShouldClose, h]

/-- The loop ends once a frame closes the window. -/
theorem renderLoop_ends (frames : List Frame) : ∀ w : World,
    (w.shouldClose = true ∨ frames.any Frame.closes = true) →
    ∃ w', renderLoop frames w = .ok w' := by
  induction frames with
  | nil =>
    intro w h
    rcases h with h | h
    · exact ⟨_, renderLoop_closed [] w h⟩
    · simp at h
  | cons f rest ih =>
    intro w h
    cases hw : w.shouldClose
    · rw [renderLoop_open f rest w hw]
      apply ih
      rcases h with h | h
      · rw [hw] at h; cases h
      · rw [List.any_cons, Bool.or_eq_true] at h
        rcases h with h | h
        · left
          rw [(frameBody_markers f _).2, h, Bool.or_true]
        · right; exact h
    · exact ⟨_, renderLoop_closed _ w hw⟩

/-- C9: in an iteration of the render loop in which ESC is seen pressed, the
close flag is set by `UProcessInput`, the three draws, the buffer swap and
`glfwPollEvents` still follow, and the next loop test answers true and ends
the loop: no further iteration is started, whatever frames might follow. -/
theorem esc_frame_completes (f : Frame) (rest : List Frame) (w : World)
    (hesc : Key.escape ∈ f.pressed) (hopen : w.shouldClose = false) :
    ∃ w', renderLoop (f :: rest) w = .ok w' ∧ w'.shouldClose = true ∧
      markers w'.trace = markers w.trace ++
        [.check false, .setClose, .draw, .draw, .draw, .swap, .poll, .check true] := by
  obtain ⟨-, c2, c3⟩ := glfwWindowShouldClose_spec w
  obtain ⟨m1, s1⟩ := frameBody_markers f (glfwWindowShouldClose w).2
  have hcl : f.closes = true := by simp [Frame.closes, hesc]
  have hclosed : (frameBody f (glfwWindowShouldClose w).2).shouldClose = true := by
    rw [s1, hcl, Bool.or_true]
  obtain ⟨-, d2, d3⟩ := glfwWindowShouldClose_spec (frameBody f (glfwWindowShouldClose w).2)
  refine ⟨(glfwWindowShouldClose (frameBody f (glfwWindowShouldClose w).2)).2, ?_, ?_, ?_⟩
  · rw [renderLoop_open f rest w hopen]
    exact renderLoop_closed rest _ hclosed
  · rw [d2, hclosed]
  · rw [d3, m1, c3, hclosed, hopen]
    simp [hesc]

/-- C9, witness: the frame `escFrame` from the initial state, two more frames waiting. -/
theorem esc_frame_completes_witness :
    ∃ w', renderLoop (escFrame :: [escFrame, escFrame]) {} = .ok w' ∧ w'.shouldClose = true ∧
      markers w'.trace = markers ({} : World).trace ++
        [.check false, .setClose, .draw, .draw, .draw, .swap, .poll, .check true] :=
  esc_frame_completes escFrame [escFrame, escFrame] {} (by decide) rfl

/-! ### Start-up: results and landmarks -/

theorem UInitialize_result (env : Env) (w : World) :
    (UInitialize env w).1 = env.initOk ∧
    markers (UInitialize env w).2.trace = markers w.trace := by
  unfold UInitialize
  cases hw : env.windowCreated <;> cases hg : env.glewOk <;>
    simp [Env.initOk, World.emit, World.emits, hw, hg, markers, Event.asMarker]

theorem UCreateMesh_markers (w : World) : markers (UCreateMesh w).trace = markers w.trace := by
  simp [UCreateMesh, vertexAttribs, World.emits, glBufferData, glBindBuffer, glGenBuffers,
    glBindVertexArray, glGenVertexArrays, markers, Event.asMarker]

theorem UCreateShaderProgram_result (env : Env) (programId : GLuint) (w : World) :
    (UCreateShaderProgram env programId w).1 = env.shaderOk ∧
    markers (UCreateShaderProgram env programId w).2.2.trace = markers w.trace := by
  unfold UCreateShaderProgram
  cases hv : env.vertexCompiles <;> cases hf : env.fragmentCompiles <;> cases hl : env.links <;>
    simp [Env.shaderOk, World.emit, World.emits, glCreateProgram, glCreateShader,
      glCompileShader, glAttachShader, glLinkProgram, glUseProgram, hv, hf, hl, markers,
      Event.asMarker]

theorem UCreateTexture_markers (env : Env) (textureId : GLuint) (w : World)
    (r : Bool × GLuint × World) (h : UCreateTexture env textureId w = .ok r) :
    markers r.2.2.trace = markers w.trace := by
  unfold UCreateTexture at h
  cases hd : env.stbi_load with
  | none =>
    simp only [hd] at h
    cases h
    simp [World.emit, markers, Event.asMarker]
  | some d =>
    simp only [hd] at h
    cases hflip : flipImageVertically d.image d.width d.height d.channels with
    | error e => simp [hflip, bind, Except.bind] at h
    | ok image =>
      simp only [hflip, bind, Except.bind] at h
      by_cases h3 : d.channels = 3
      · simp only [h3, if_true] at h
        cases h
        simp [World.emit, World.emits, markers, Event.asMarker, glGenTextures, glBindTexture,
          glTexImage2D, finishTexture]
      · by_cases h4 : d.channels = 4
        · simp only [h4, if_true] at h
          cases h
          simp [World.emit, World.emits, markers, Event.asMarker, glGenTextures,
            glBindTexture, glTexImage2D, finishTexture]
        · simp only [h3, h4, if_false] at h
          cases h
          simp [World.emit, World.emits, markers, Event.asMarker, glGenTextures,
            glBindTexture]

theorem startupTexture_result (env : Env) (w : World) (r : Bool × World)
    (h : startupTexture env w = .ok r) :
    r.1 = env.textureOk ∧ markers r.2.trace = markers w.trace := by
  unfold startupTexture at h
  cases ht : UCreateTexture env w.gTextureId w with
  | error e => simp [ht, bind, Except.bind] at h
  | ok t =>
    have i1 := (UCreateTexture_returns env w.gTextureId w t ht).1
    have i2 := UCreateTexture_markers env w.gTextureId w t ht
    obtain ⟨ok, textureId, w1⟩ := t
    simp only [ht, bind, Except.bind] at h
    simp only at i1 i2
    have m1 : markers [Event.print Message.failedToLoadTexture] = [] := rfl
    have m2 : ∀ p q, markers [Event.glUseProgram p] ++ markers [Event.glGetUniformLocation q
        Uniform.uTexture, Event.glUniform1i Uniform.uTexture 0, Event.glClearColor] = [] :=
      fun _ _ => rfl
    cases ok
    · simp only [Bool.not_false, if_true] at h
      cases h
      exact ⟨i1, by simp only [World.emit, markers_append, i2, m1, List.append_nil]⟩
    · simp only [Bool.not_true, Bool.false_eq_true, if_false] at h
      cases h
      refine ⟨i1, ?_⟩
      simp only [World.emits, glUseProgram, markers_append, i2, List.append_assoc, m2,
        List.append_nil]

theorem startupTexture_total (env : Env) (w : World)
    (hwf : ∀ d, env.stbi_load = some d → d.WellFormed) (e : Fault) :
    startupTexture env w ≠ .error e := by
  obtain ⟨t, ht⟩ := UCreateTexture_total env w.gTextureId w hwf
  obtain ⟨ok, textureId, w1⟩ := t
  intro h
  unfold startupTexture at h
  simp only [ht, bind, Except.bind] at h
  cases ok <;> simp at h

theorem startupShader_result (env : Env) (w : World) (r : Bool × World)
    (h : startupShader env w = .ok r) :
    r.1 = (env.shaderOk && env.textureOk) ∧ markers r.2.trace = markers w.trace := by
  unfold startupShader at h
  obtain ⟨i1, i2⟩ := UCreateShaderProgram_result env w.gProgramId w
  cases hok : (UCreateShaderProgram env w.gProgramId w).1
  · simp only [hok, Bool.not_false, if_true] at h
    cases h
    rw [hok] at i1
    exact ⟨by rw [← i1]; rfl, i2⟩
  · simp only [hok, Bool.not_true, Bool.false_eq_true, if_false] at h
    obtain ⟨j1, j2⟩ := startupTexture_result env _ r h
    rw [hok] at i1
    exact ⟨by rw [← i1, j1]; rfl, j2.trans i2⟩

theorem startupShader_total (env : Env) (w : World)
    (hwf : ∀ d, env.stbi_load = some d → d.WellFormed) (e : Fault) :
    startupShader env w ≠ .error e := by
  intro h
  unfold startupShader at h
  cases hok : (UCreateShaderProgram env w.gProgramId w).1
  · simp [hok] at h
  · simp only [hok, Bool.not_true, Bool.false_eq_true, if_false] at h
    exact startupTexture_total env _ hwf e h

theorem startup_result (env : Env) (r : Bool × World) (h : startup env = .ok r) :
    r.1 = env.startupOk ∧ markers r.2.trace = [] := by
  unfold startup at h
  obtain ⟨i1, i2⟩ := UInitialize_result env {}
  cases hok : (UInitialize env {}).1
  · simp only [hok, Bool.not_false, if_true] at h
    cases h
    rw [hok] at i1
    exact ⟨by simp [Env.startupOk, ← i1], i2⟩
  · simp only [hok, Bool.not_true, Bool.false_eq_true, if_false] at h
    obtain ⟨j1, j2⟩ := startupShader_result env _ r h
    rw [hok] at i1
    refine ⟨by rw [j1, Env.startupOk, ← i1, Bool.true_and], ?_⟩
    rw [j2, UCreateMesh_markers, i2]
    rfl

theorem startup_total (env : Env) (hwf : ∀ d, env.stbi_load = some d → d.WellFormed) :
    ∃ r, startup env = .ok r := by
  cases h : startup env with
  | ok r => exact ⟨r, rfl⟩
  | error e =>
    exfalso
    unfold startup at h
    cases hok : (UInitialize env {}).1
    · simp only [hok, Bool.not_false, if_true] at h
      cases h
    · simp only [hok, Bool.not_true, Bool.false_eq_true, if_false] at h
      exact startupShader_total env _ hwf e h

/-- The loop run from an open window on frames one of which closes it: it
ends, the close flag is set, and its landmarks are `loopMarkers`. -/
theorem renderLoop_markers (frames : List Frame) : ∀ w : World, w.shouldClose = false →
    frames.any Frame.closes = true →
    ∃ w', renderLoop frames w = .ok w' ∧ w'.shouldClose = true ∧
      markers w'.trace = markers w.trace ++ loopMarkers frames := by
  induction frames with
  | nil => intro w _ h; simp at h
  | cons f rest ih =>
    intro w hopen hany
    obtain ⟨-, c2, c3⟩ := glfwWindowShouldClose_spec w
    obtain ⟨m1, s1⟩ := frameBody_markers f (glfwWindowShouldClose w).2
    rw [c2, hopen, Bool.false_or] at s1
    rw [c3, hopen] at m1
    rw [renderLoop_open f rest w hopen]
    cases hcl : f.closes
    · rw [hcl] at s1
      rw [List.any_cons, hcl, Bool.false_or] at hany
      obtain ⟨w', r1, r2, r3⟩ := ih _ s1 hany
      refine ⟨w', r1, r2, ?_⟩
      rw [r3, m1]
      simp [loopMarkers, hcl]
    · rw [hcl] at s1
      obtain ⟨-, d2, d3⟩ := glfwWindowShouldClose_spec (frameBody f (glfwWindowShouldClose w).2)
      refine ⟨_, renderLoop_closed rest _ s1, by rw [d2, s1], ?_⟩
      rw [d3, m1, s1]
      simp [loopMarkers, hcl]

/-- The loop run from an open window on frames none of which closes it has
not ended when the frames are used up. -/
theorem renderLoop_never (frames : List Frame) : ∀ w : World, w.shouldClose = false →
    frames.any Frame.closes = false → renderLoop frames w = .error .outOfFuel := by
  induction frames with
  | nil => intro w hopen _; simp [renderLoop, glfwWindowShouldClose, hopen]
  | cons f rest ih =>
    intro w hopen hany
    rw [List.any_cons, Bool.or_eq_false_iff] at hany
    obtain ⟨-, c2, -⟩ := glfwWindowShouldClose_spec w
    obtain ⟨-, s1⟩ := frameBody_markers f (glfwWindowShouldClose w).2
    rw [c2, hopen, hany.1, Bool.false_or] at s1
    rw [renderLoop_open f rest w hopen]
    exact ih _ s1 hany.2

/-- The release calls after the loop are no landmarks and leave the close flag. -/
theorem shutdown_markers (w : World) :
    markers (shutdown w).trace = markers w.trace ∧ (shutdown w).shouldClose = w.shouldClose := by
  simp [shutdown, UDestroyMesh, UDestroyShaderProgram, glDeleteVertexArrays, glDeleteBuffers,
    glDeleteProgram, markers, Event.asMarker]

/-- C4: given that the decoder hands back well-formed images, `UInitialize`,
`UCreateShaderProgram` and `UCreateTexture` report `initOk`, `shaderOk` and
`textureOk`. If one of them reports failure, `main` returns the nonzero status
`EXIT_FAILURE` and the calls it has made include no loop test, no draw, no
swap and no poll: the render loop was never entered. If all three succeed,
`main` runs the render loop: when some frame closes the window it ends with
status 0, with the close flag set, having made exactly the loop tests, draws,
swaps and polls of the iterations up to and including the first frame that
closes the window, and last the loop test that answers true; when no frame
closes the window it has not ended. -/
theorem main_exit_status (env : Env) (frames : List Frame)
    (hwf : ∀ d, env.stbi_load = some d → d.WellFormed) :
    (∀ w, (UInitialize env w).1 = env.initOk) ∧
    (∀ programId w, (UCreateShaderProgram env programId w).1 = env.shaderOk) ∧
    (∀ textureId w, ∃ r, UCreateTexture env textureId w = .ok r ∧ r.1 = env.textureOk) ∧
    EXIT_FAILURE ≠ 0 ∧ EXIT_SUCCESS = 0 ∧
    (if env.startupOk = true then
      (if frames.any Frame.closes = true then
        ∃ w, main env frames = .ok (EXIT_SUCCESS, w) ∧ w.shouldClose = true ∧
          markers w.trace = loopMarkers frames
      else main env frames = .error .outOfFuel)
    else ∃ w, main env frames = .ok (EXIT_FAILURE, w) ∧ markers w.trace = []) := by
  refine ⟨fun w => (UInitialize_result env w).1,
    fun p w => (UCreateShaderProgram_result env p w).1, ?_, by decide, rfl, ?_⟩
  · intro textureId w
    obtain ⟨r, hr⟩ := UCreateTexture_total env textureId w hwf
    exact ⟨r, hr, (UCreateTexture_returns env textureId w r hr).1⟩
  · obtain ⟨r, hr⟩ := startup_total env hwf
    obtain ⟨f1, f2⟩ := startup_result env r hr
    obtain ⟨-, -, -, -, -, hopen⟩ := startup_sameInputs env r hr
    obtain ⟨ok, w0⟩ := r
    simp only at f1 f2 hopen
    cases hok : env.startupOk
    · rw [hok] at f1
      subst f1
      simp only [Bool.false_eq_true, if_false]
      exact ⟨w0, by simp [main, hr, bind, Except.bind], f2⟩
    · rw [hok] at f1
      subst f1
      simp only [if_true]
      cases hcl : frames.any Frame.closes
      · simp only [Bool.false_eq_true, if_false]
        have hnever := renderLoop_never frames w0 hopen hcl
        simp [main, hr, hnever, bind, Except.bind]
      · simp only [if_true]
        obtain ⟨w', r1, r2, r3⟩ := renderLoop_markers frames w0 hopen hcl
        obtain ⟨s1, s2⟩ := shutdown_markers w'
        refine ⟨shutdown w', by simp [main, hr, r1, bind, Except.bind], by rw [s2, r2], ?_⟩
        rw [s1, r3, f2, List.nil_append]

/-- C4, witness: with everything succeeding, a frame that leaves the window
open followed by one in which ESC is pressed gives status 0 after both
iterations, and the first frame alone leaves the run unfinished; with a
vertex shader that does not compile the status is `EXIT_FAILURE` and no
landmark of the loop is in the trace. -/
theorem main_exit_status_witness :
    (∃ w, main goodEnv [openFrame, escFrame] = .ok (EXIT_SUCCESS, w) ∧ w.shouldClose = true ∧
      markers w.trace = [.check false, .draw, .draw, .draw, .swap, .poll,
        .check false, .setClose, .draw, .draw, .draw, .swap, .poll, .check true]) ∧
    main goodEnv [openFrame] = .error .outOfFuel ∧
    (∃ w, main brokenVertexEnv [openFrame, escFrame] = .ok (EXIT_FAILURE, w) ∧
      markers w.trace = []) := by
  have hgood : ∀ d, goodEnv.stbi_load = some d → d.WellFormed := fun d hd => by
    cases hd
    exact ⟨2, 2, 3, rfl, rfl, rfl, by decide, by decide, by decide⟩
  have hbroken : ∀ d, brokenVertexEnv.stbi_load = some d → d.WellFormed := fun d hd => by
    cases hd
  have h1 := (main_exit_status goodEnv [openFrame, escFrame] hgood).2.2.2.2.2
  have h2 := (main_exit_status goodEnv [openFrame] hgood).2.2.2.2.2
  have h3 := (main_exit_status brokenVertexEnv [openFrame, escFrame] hbroken).2.2.2.2.2
  have e1 : goodEnv.startupOk = true := by decide
  have e2 : brokenVertexEnv.startupOk = false := by decide
  have e3 : [openFrame, escFrame].any Frame.closes = true := by decide
  have e4 : [openFrame].any Frame.closes = false := by decide
  have e5 : loopMarkers [openFrame, escFrame] = [.check false, .draw, .draw, .draw, .swap,
      .poll, .check false, .setClose, .draw, .draw, .draw, .swap, .poll, .check true] := by
    decide
  rw [if_pos e1, if_pos e3, e5] at h1
  rw [if_pos e1, e4] at h2
  rw [e2] at h3
  exact ⟨h1, h2, h3⟩

end OpenGLSample
